import Mathlib

/-!
Shallow embedding of the InMotion data-access layer (`DatabaseStorage` in the
server storage module), its drizzle schema (`@shared/schema`), the Express
route handlers (`server/routes.ts`) and the client-side `useOnboarding` hook.

Conventions of the embedding:
* the relational store is a `DB` structure holding one list of rows per table;
* SQL `varchar` / `text` columns are `String`, `integer` is `Int`,
  `boolean` is `Bool`, `timestamp` is `Nat` (epoch seconds) and `date` is
  `String`; a nullable column is wrapped in `Option`;
* Postgres `DATE(ts)` truncation of a timestamp is modelled as the day number
  `ts / 86400` rendered as a string (`dateOfTimestamp`);
* `gen_random_uuid()` and `now()` are external inputs: every mutating
  operation takes the fresh id and/or the current time as explicit arguments;
* a TypeScript `Partial<T>` patch is a structure of `Option` fields (outer
  `Option` = key present in the object); a nullable column in a patch or an
  insert payload is a double `Option` (`some none` = key present with value
  `null`);
* JSON request bodies are values of the `Json` inductive; the drizzle-zod
  insert schemas are decoders `Json → Option payload`.
-/

namespace InMotion

/-- A JSON value, used for request bodies and `jsonb` columns. -/
inductive Json where
  | null : Json
  | bool (b : Bool) : Json
  | num (n : Int) : Json
  | str (s : String) : Json
  | arr (elems : List Json) : Json
  | obj (fields : List (String × Json)) : Json
deriving Repr, Inhabited

mutual

/-- Decidable equality of JSON values (nested induction written by hand). -/
def Json.decEq : (a b : Json) → Decidable (a = b)
  | .null, .null => isTrue rfl
  | .bool x, .bool y =>
      if h : x = y then isTrue (by rw [h])
      else isFalse (by intro hc; cases hc; exact h rfl)
  | .num x, .num y =>
      if h : x = y then isTrue (by rw [h])
      else isFalse (by intro hc; cases hc; exact h rfl)
  | .str x, .str y =>
      if h : x = y then isTrue (by rw [h])
      else isFalse (by intro hc; cases hc; exact h rfl)
  | .arr xs, .arr ys =>
      match Json.decEqList xs ys with
      | isTrue h => isTrue (by rw [h])
      | isFalse h => isFalse (by intro hc; cases hc; exact h rfl)
  | .obj xs, .obj ys =>
      match Json.decEqFields xs ys with
      | isTrue h => isTrue (by rw [h])
      | isFalse h => isFalse (by intro hc; cases hc; exact h rfl)
  | .null, .bool _ | .null, .num _ | .null, .str _ | .null, .arr _ | .null, .obj _
  | .bool _, .null | .bool _, .num _ | .bool _, .str _ | .bool _, .arr _ | .bool _, .obj _
  | .num _, .null | .num _, .bool _ | .num _, .str _ | .num _, .arr _ | .num _, .obj _
  | .str _, .null | .str _, .bool _ | .str _, .num _ | .str _, .arr _ | .str _, .obj _
  | .arr _, .null | .arr _, .bool _ | .arr _, .num _ | .arr _, .str _ | .arr _, .obj _
  | .obj _, .null | .obj _, .bool _ | .obj _, .num _ | .obj _, .str _ | .obj _, .arr _ =>
      isFalse (by intro hc; cases hc)

/-- Decidable equality of JSON arrays. -/
def Json.decEqList : (a b : List Json) → Decidable (a = b)
  | [], [] => isTrue rfl
  | [], _ :: _ => isFalse (by intro hc; cases hc)
  | _ :: _, [] => isFalse (by intro hc; cases hc)
  | x :: xs, y :: ys =>
      match Json.decEq x y with
      | isTrue h1 =>
          match Json.decEqList xs ys with
          | isTrue h2 => isTrue (by rw [h1, h2])
          | isFalse h2 => isFalse (by intro hc; cases hc; exact h2 rfl)
      | isFalse h1 => isFalse (by intro hc; cases hc; exact h1 rfl)

/-- Decidable equality of JSON object field lists. -/
def Json.decEqFields : (a b : List (String × Json)) → Decidable (a = b)
  | [], [] => isTrue rfl
  | [], _ :: _ => isFalse (by intro hc; cases hc)
  | _ :: _, [] => isFalse (by intro hc; cases hc)
  | (k1, v1) :: xs, (k2, v2) :: ys =>
      if hk : k1 = k2 then
          match Json.decEq v1 v2 with
          | isTrue hv =>
              match Json.decEqFields xs ys with
              | isTrue h2 => isTrue (by rw [hk, hv, h2])
              | isFalse h2 => isFalse (by intro hc; cases hc; exact h2 rfl)
          | isFalse hv => isFalse (by intro hc; cases hc; exact hv rfl)
      else isFalse (by intro hc; cases hc; exact hk rfl)

end

instance : DecidableEq Json := Json.decEq

/-- Look up a key of a JSON object (first occurrence). -/
def Json.get? (j : Json) (k : String) : Option Json :=
  match j with
  | .obj fields => (fields.find? (fun f => f.fst == k)).map (fun f => f.snd)
  | _ => none

/-- `{...j, k: v}`: the JavaScript object-spread used by the routes to force
the authenticated `userId` into the request body before validation. -/
def Json.setKey (j : Json) (k : String) (v : Json) : Json :=
  match j with
  | .obj fields => .obj ((fields.filter (fun f => !(f.fst == k))) ++ [(k, v)])
  | _ => .obj [(k, v)]

/-! ## Table rows (drizzle schema, `@shared/schema`) -/

/-- Row of `users`. -/
structure User where
  id : String
  email : Option String
  firstName : Option String
  lastName : Option String
  profileImageUrl : Option String
  createdAt : Option Nat
  updatedAt : Option Nat
deriving Repr, DecidableEq

/-- Row of `vision_plans`. -/
structure VisionPlan where
  id : String
  userId : String
  coreValues : Option (List String)
  threeYearVision : Option String
  whyEngine : Option String
  createdAt : Option Nat
  updatedAt : Option Nat
deriving Repr, DecidableEq

/-- Row of `quarterly_quests`. -/
structure QuarterlyQuest where
  id : String
  userId : String
  title : String
  goal : String
  plan : String
  systems : String
  quarter : String
  year : Int
  progress : Option Int
  isActive : Option Bool
  createdAt : Option Nat
  updatedAt : Option Nat
deriving Repr, DecidableEq

/-- Row of `weekly_plans`. -/
structure WeeklyPlan where
  id : String
  userId : String
  quarterlyQuestId : Option String
  weekStartDate : String
  priorities : Option Json
  reflection : Option Json
  progress : Option Int
  createdAt : Option Nat
  updatedAt : Option Nat
deriving Repr, DecidableEq

/-- Row of `daily_tasks`. -/
structure DailyTask where
  id : String
  userId : String
  weeklyPlanId : Option String
  title : String
  description : Option String
  impact : String
  isCompleted : Option Bool
  completedAt : Option Nat
  date : String
  pomodoroCount : Option Int
  createdAt : Option Nat
  updatedAt : Option Nat
deriving Repr, DecidableEq

/-- Row of `pomodoro_sessions`. -/
structure PomodoroSession where
  id : String
  userId : String
  taskId : Option String
  duration : Int
  type : String
  completedAt : Nat
  createdAt : Option Nat
deriving Repr, DecidableEq

/-- Row of `daily_reflections`. -/
structure DailyReflection where
  id : String
  userId : String
  date : String
  reflection : Option String
  tomorrowPriority : Option String
  energyLevel : Option Int
  createdAt : Option Nat
  updatedAt : Option Nat
deriving Repr, DecidableEq

/-- Modelled from the spec: the `error_logs` table is referenced by the
storage module and routes but its schema declaration is not among the visible
sources; per the spec an ErrorLog has a block type, error message, error
stack, structured details and an optional `userId`, and is append-only. -/
structure ErrorLog where
  id : String
  blockType : String
  errorMessage : String
  errorStack : Option String
  errorDetails : Option Json
  userId : Option String
  createdAt : Option Nat
deriving Repr, DecidableEq

/-- The whole relational store: one list of rows per table. -/
structure DB where
  users : List User
  visionPlans : List VisionPlan
  quarterlyQuests : List QuarterlyQuest
  weeklyPlans : List WeeklyPlan
  dailyTasks : List DailyTask
  pomodoroSessions : List PomodoroSession
  dailyReflections : List DailyReflection
  errorLogs : List ErrorLog
deriving Repr, DecidableEq

/-! ## Insert payloads (the drizzle-zod insert schemas)

A field of an insert payload is doubly optional when the column is nullable
or has a default: the outer `Option` records whether the key is present in
the parsed payload, the inner `Option` is SQL null. -/

/-- `UpsertUser` (`users.$inferInsert`); the authentication layer always
supplies the id (`claims.sub`). -/
structure UpsertUser where
  id : String
  email : Option String := none
  firstName : Option String := none
  lastName : Option String := none
  profileImageUrl : Option String := none
deriving Repr, DecidableEq

/-- `InsertVisionPlan` (`insertVisionPlanSchema`): `userId` required, the
three mutable fields optional and nullable. -/
structure InsertVisionPlan where
  userId : String
  coreValues : Option (Option (List String)) := none
  threeYearVision : Option (Option String) := none
  whyEngine : Option (Option String) := none
deriving Repr, DecidableEq

/-- `InsertQuarterlyQuest` (`insertQuarterlyQuestSchema`). -/
structure InsertQuarterlyQuest where
  userId : String
  title : String
  goal : String
  plan : String
  systems : String
  quarter : String
  year : Int
  progress : Option (Option Int) := none
  isActive : Option (Option Bool) := none
deriving Repr, DecidableEq

/-- `InsertWeeklyPlan` (`insertWeeklyPlanSchema`). -/
structure InsertWeeklyPlan where
  userId : String
  quarterlyQuestId : Option (Option String) := none
  weekStartDate : String
  priorities : Option (Option Json) := none
  reflection : Option (Option Json) := none
  progress : Option (Option Int) := none
deriving Repr, DecidableEq

/-- `InsertDailyTask` (`insertDailyTaskSchema`); note `completedAt` is
omitted from the schema, so a create can never set it. -/
structure InsertDailyTask where
  userId : String
  weeklyPlanId : Option (Option String) := none
  title : String
  description : Option (Option String) := none
  impact : String
  isCompleted : Option (Option Bool) := none
  date : String
  pomodoroCount : Option (Option Int) := none
deriving Repr, DecidableEq

/-- `InsertPomodoroSession` (`insertPomodoroSessionSchema`). -/
structure InsertPomodoroSession where
  userId : String
  taskId : Option (Option String) := none
  duration : Int
  type : String
  completedAt : Nat
deriving Repr, DecidableEq

/-- `InsertDailyReflection` (`insertDailyReflectionSchema`). -/
structure InsertDailyReflection where
  userId : String
  date : String
  reflection : Option (Option String) := none
  tomorrowPriority : Option (Option String) := none
  energyLevel : Option (Option Int) := none
deriving Repr, DecidableEq

/-- Modelled from the spec: `InsertErrorLog` for the `error_logs` table whose
schema declaration is not among the visible sources. -/
structure InsertErrorLog where
  blockType : String
  errorMessage : String
  errorStack : Option (Option String) := none
  errorDetails : Option (Option Json) := none
  userId : Option (Option String) := none
deriving Repr, DecidableEq

/-! ## Patch objects (`Partial<Row>` as received by the update operations) -/

/-- `Partial<QuarterlyQuest>`: each key may be absent; nullable columns may
be set to null. -/
structure QuestPatch where
  id : Option String := none
  userId : Option String := none
  title : Option String := none
  goal : Option String := none
  plan : Option String := none
  systems : Option String := none
  quarter : Option String := none
  year : Option Int := none
  progress : Option (Option Int) := none
  isActive : Option (Option Bool) := none
  createdAt : Option (Option Nat) := none
  updatedAt : Option (Option Nat) := none
deriving Repr, DecidableEq

/-- `Partial<WeeklyPlan>`. -/
structure WeeklyPlanPatch where
  id : Option String := none
  userId : Option String := none
  quarterlyQuestId : Option (Option String) := none
  weekStartDate : Option String := none
  priorities : Option (Option Json) := none
  reflection : Option (Option Json) := none
  progress : Option (Option Int) := none
  createdAt : Option (Option Nat) := none
  updatedAt : Option (Option Nat) := none
deriving Repr, DecidableEq

/-- `Partial<DailyTask>`. -/
structure TaskPatch where
  id : Option String := none
  userId : Option String := none
  weeklyPlanId : Option (Option String) := none
  title : Option String := none
  description : Option (Option String) := none
  impact : Option String := none
  isCompleted : Option (Option Bool) := none
  completedAt : Option (Option Nat) := none
  date : Option String := none
  pomodoroCount : Option (Option Int) := none
  createdAt : Option (Option Nat) := none
  updatedAt : Option (Option Nat) := none
deriving Repr, DecidableEq

/-! ## The storage operations (`DatabaseStorage`)

Reads are functions of the store; mutators return the row the source's
`RETURNING` destructuring yields (an `Option` when the source can yield
`undefined`) together with the new store. -/

/-- `getUser`: lookup by primary key. -/
def getUser (id : String) (db : DB) : Option User :=
  db.users.find? (fun u => u.id == id)

/-- The `onConflictDoUpdate` set-clause of `upsertUser`. -/
def applyUserUpsert (now : Nat) (u : UpsertUser) (r : User) : User :=
  { r with email := u.email, firstName := u.firstName, lastName := u.lastName,
           profileImageUrl := u.profileImageUrl, updatedAt := some now }

/-- `upsertUser`: insert, on primary-key conflict update the profile fields. -/
def upsertUser (u : UpsertUser) (now : Nat) (db : DB) : User × DB :=
  match db.users.find? (fun r => r.id == u.id) with
  | some existing =>
      let rows := db.users.map
        (fun r => if r.id == u.id then applyUserUpsert now u r else r)
      (applyUserUpsert now u existing, { db with users := rows })
  | none =>
      let created : User :=
        { id := u.id, email := u.email, firstName := u.firstName,
          lastName := u.lastName, profileImageUrl := u.profileImageUrl,
          createdAt := some now, updatedAt := some now }
      (created, { db with users := db.users ++ [created] })

/-- `getVisionPlan`: single-row lookup by `userId`. -/
def getVisionPlan (userId : String) (db : DB) : Option VisionPlan :=
  db.visionPlans.find? (fun p => p.userId == userId)

/-- The update branch of `upsertVisionPlan`:
`{...visionPlan, updatedAt: now()}` applied to an existing row. -/
def applyVisionUpsert (now : Nat) (v : InsertVisionPlan) (r : VisionPlan) : VisionPlan :=
  { r with userId := v.userId,
           coreValues := v.coreValues.getD r.coreValues,
           threeYearVision := v.threeYearVision.getD r.threeYearVision,
           whyEngine := v.whyEngine.getD r.whyEngine,
           updatedAt := some now }

/-- The insert branch of `upsertVisionPlan` (absent payload keys fall back to
the column defaults: null for the three mutable fields, `now()` timestamps). -/
def newVisionPlanRow (newId : String) (now : Nat) (v : InsertVisionPlan) : VisionPlan :=
  { id := newId, userId := v.userId,
    coreValues := v.coreValues.getD none,
    threeYearVision := v.threeYearVision.getD none,
    whyEngine := v.whyEngine.getD none,
    createdAt := some now, updatedAt := some now }

/-- `upsertVisionPlan`: look up the user's plan; update in place when found,
insert otherwise. -/
def upsertVisionPlan (v : InsertVisionPlan) (newId : String) (now : Nat) (db : DB) :
    VisionPlan × DB :=
  match getVisionPlan v.userId db with
  | some existing =>
      let rows := db.visionPlans.map
        (fun r => if r.userId == v.userId then applyVisionUpsert now v r else r)
      (applyVisionUpsert now v existing, { db with visionPlans := rows })
  | none =>
      (newVisionPlanRow newId now v,
       { db with visionPlans := db.visionPlans ++ [newVisionPlanRow newId now v] })

/-- `getQuarterlyQuests`: all quests owned by the user. -/
def getQuarterlyQuests (userId : String) (db : DB) : List QuarterlyQuest :=
  db.quarterlyQuests.filter (fun q => q.userId == userId)

/-- The row built by `createQuarterlyQuest` (column defaults for absent keys). -/
def newQuestRow (newId : String) (now : Nat) (q : InsertQuarterlyQuest) : QuarterlyQuest :=
  { id := newId, userId := q.userId, title := q.title, goal := q.goal,
    plan := q.plan, systems := q.systems, quarter := q.quarter, year := q.year,
    progress := q.progress.getD (some 0), isActive := q.isActive.getD (some true),
    createdAt := some now, updatedAt := some now }

/-- `createQuarterlyQuest`: plain insert. -/
def createQuarterlyQuest (q : InsertQuarterlyQuest) (newId : String) (now : Nat)
    (db : DB) : QuarterlyQuest × DB :=
  (newQuestRow newId now q,
   { db with quarterlyQuests := db.quarterlyQuests ++ [newQuestRow newId now q] })

/-- `{...updates, updatedAt: now()}` applied to a quest row: every present
patch key is written verbatim; only `updatedAt` is overridden. -/
def applyQuestPatch (now : Nat) (p : QuestPatch) (r : QuarterlyQuest) : QuarterlyQuest :=
  { id := p.id.getD r.id, userId := p.userId.getD r.userId,
    title := p.title.getD r.title, goal := p.goal.getD r.goal,
    plan := p.plan.getD r.plan, systems := p.systems.getD r.systems,
    quarter := p.quarter.getD r.quarter, year := p.year.getD r.year,
    progress := p.progress.getD r.progress, isActive := p.isActive.getD r.isActive,
    createdAt := p.createdAt.getD r.createdAt, updatedAt := some now }

/-- `updateQuarterlyQuest`: partial update of the rows matching both
`questId` and `userId`; the returned row is the source's `[updated]`
destructuring, hence `none` when no row matched. -/
def updateQuarterlyQuest (questId userId : String) (updates : QuestPatch) (now : Nat)
    (db : DB) : Option QuarterlyQuest × DB :=
  let rows := db.quarterlyQuests.map
    (fun q => if q.id == questId && q.userId == userId
              then applyQuestPatch now updates q else q)
  ((db.quarterlyQuests.find? (fun q => q.id == questId && q.userId == userId)).map
     (applyQuestPatch now updates),
   { db with quarterlyQuests := rows })

/-- `getWeeklyPlans`: the user's plans, optionally filtered by week start. -/
def getWeeklyPlans (userId : String) (weekStart : Option String) (db : DB) :
    List WeeklyPlan :=
  match weekStart with
  | some ws =>
      db.weeklyPlans.filter (fun p => p.userId == userId && p.weekStartDate == ws)
  | none => db.weeklyPlans.filter (fun p => p.userId == userId)

/-- The row built by `createWeeklyPlan`. -/
def newWeeklyPlanRow (newId : String) (now : Nat) (w : InsertWeeklyPlan) : WeeklyPlan :=
  { id := newId, userId := w.userId,
    quarterlyQuestId := w.quarterlyQuestId.getD none,
    weekStartDate := w.weekStartDate,
    priorities := w.priorities.getD none, reflection := w.reflection.getD none,
    progress := w.progress.getD (some 0),
    createdAt := some now, updatedAt := some now }

/-- `createWeeklyPlan`: plain insert. -/
def createWeeklyPlan (w : InsertWeeklyPlan) (newId : String) (now : Nat) (db : DB) :
    WeeklyPlan × DB :=
  (newWeeklyPlanRow newId now w,
   { db with weeklyPlans := db.weeklyPlans ++ [newWeeklyPlanRow newId now w] })

/-- `{...updates, updatedAt: now()}` applied to a weekly-plan row. -/
def applyWeeklyPlanPatch (now : Nat) (p : WeeklyPlanPatch) (r : WeeklyPlan) : WeeklyPlan :=
  { id := p.id.getD r.id, userId := p.userId.getD r.userId,
    quarterlyQuestId := p.quarterlyQuestId.getD r.quarterlyQuestId,
    weekStartDate := p.weekStartDate.getD r.weekStartDate,
    priorities := p.priorities.getD r.priorities,
    reflection := p.reflection.getD r.reflection,
    progress := p.progress.getD r.progress,
    createdAt := p.createdAt.getD r.createdAt, updatedAt := some now }

/-- `updateWeeklyPlan`: partial update scoped by `planId` and `userId`. -/
def updateWeeklyPlan (planId userId : String) (updates : WeeklyPlanPatch) (now : Nat)
    (db : DB) : Option WeeklyPlan × DB :=
  let rows := db.weeklyPlans.map
    (fun p => if p.id == planId && p.userId == userId
              then applyWeeklyPlanPatch now updates p else p)
  ((db.weeklyPlans.find? (fun p => p.id == planId && p.userId == userId)).map
     (applyWeeklyPlanPatch now updates),
   { db with weeklyPlans := rows })

/-- `getDailyTasks`: the user's tasks, optionally filtered by date. -/
def getDailyTasks (userId : String) (date : Option String) (db : DB) : List DailyTask :=
  match date with
  | some d => db.dailyTasks.filter (fun t => t.userId == userId && t.date == d)
  | none => db.dailyTasks.filter (fun t => t.userId == userId)

/-- The row built by `createDailyTask`; `completedAt` starts null. -/
def newTaskRow (newId : String) (now : Nat) (t : InsertDailyTask) : DailyTask :=
  { id := newId, userId := t.userId,
    weeklyPlanId := t.weeklyPlanId.getD none,
    title := t.title, description := t.description.getD none, impact := t.impact,
    isCompleted := t.isCompleted.getD (some false), completedAt := none,
    date := t.date, pomodoroCount := t.pomodoroCount.getD (some 0),
    createdAt := some now, updatedAt := some now }

/-- `createDailyTask`: plain insert. -/
def createDailyTask (t : InsertDailyTask) (newId : String) (now : Nat) (db : DB) :
    DailyTask × DB :=
  (newTaskRow newId now t,
   { db with dailyTasks := db.dailyTasks ++ [newTaskRow newId now t] })

/-- `updateData = {...updates, updatedAt: now()}`, then, when
`updates.isCompleted !== undefined`, `updateData.completedAt` is derived from
the truthiness of the patched `isCompleted` (overwriting any caller-supplied
`completedAt`); when `isCompleted` is absent, a caller-supplied `completedAt`
passes through the spread untouched. -/
def applyTaskPatch (now : Nat) (p : TaskPatch) (r : DailyTask) : DailyTask :=
  { id := p.id.getD r.id, userId := p.userId.getD r.userId,
    weeklyPlanId := p.weeklyPlanId.getD r.weeklyPlanId,
    title := p.title.getD r.title, description := p.description.getD r.description,
    impact := p.impact.getD r.impact, isCompleted := p.isCompleted.getD r.isCompleted,
    completedAt :=
      match p.isCompleted with
      | some v => if v == some true then some now else none
      | none => p.completedAt.getD r.completedAt,
    date := p.date.getD r.date,
    pomodoroCount := p.pomodoroCount.getD r.pomodoroCount,
    createdAt := p.createdAt.getD r.createdAt, updatedAt := some now }

/-- `updateDailyTask`: partial update scoped by `taskId` and `userId`, with
the `completedAt` derivation of `applyTaskPatch`. -/
def updateDailyTask (taskId userId : String) (updates : TaskPatch) (now : Nat)
    (db : DB) : Option DailyTask × DB :=
  let rows := db.dailyTasks.map
    (fun t => if t.id == taskId && t.userId == userId
              then applyTaskPatch now updates t else t)
  ((db.dailyTasks.find? (fun t => t.id == taskId && t.userId == userId)).map
     (applyTaskPatch now updates),
   { db with dailyTasks := rows })

/-- `deleteDailyTask`: delete the rows matching both `taskId` and `userId`. -/
def deleteDailyTask (taskId userId : String) (db : DB) : DB :=
  { db with dailyTasks :=
      db.dailyTasks.filter (fun t => !(t.id == taskId && t.userId == userId)) }

/-- The row built by `createPomodoroSession`. -/
def newSessionRow (newId : String) (now : Nat) (s : InsertPomodoroSession) :
    PomodoroSession :=
  { id := newId, userId := s.userId, taskId := s.taskId.getD none,
    duration := s.duration, type := s.type, completedAt := s.completedAt,
    createdAt := some now }

/-- `createPomodoroSession`: plain insert. -/
def createPomodoroSession (s : InsertPomodoroSession) (newId : String) (now : Nat)
    (db : DB) : PomodoroSession × DB :=
  (newSessionRow newId now s,
   { db with pomodoroSessions := db.pomodoroSessions ++ [newSessionRow newId now s] })

/-- Postgres `DATE(ts)` with timestamps as epoch seconds: the day number as a
string. -/
def dateOfTimestamp (t : Nat) : String :=
  toString (t / 86400)

/-- The aggregate returned by `getPomodoroStats`. -/
structure PomodoroStats where
  totalFocusTime : Int
  completedPomodoros : Nat
  averageSessionLength : Int
deriving Repr, DecidableEq

/-- JavaScript `Math.round (a / b)` for an integer sum `a` of durations and
a positive count `b`: `⌊a / b + 1 / 2⌋`, computed as a floor division (Lean's
`Int` division rounds toward negative infinity for a positive divisor); the
equality with the rational floor is proved in `jsRoundDiv_eq_floor`. -/
def jsRoundDiv (a : Int) (b : Nat) : Int :=
  (2 * a + b) / (2 * (b : Int))

/-- `getPomodoroStats`: the user's sessions (optionally those completed on
the given calendar date), restricted to `type = "work"`, then
sum / count / rounded mean of durations. -/
def getPomodoroStats (userId : String) (date : Option String) (db : DB) :
    PomodoroStats :=
  let sessions : List PomodoroSession :=
    match date with
    | some d =>
        db.pomodoroSessions.filter
          (fun s => s.userId == userId && dateOfTimestamp s.completedAt == d)
    | none => db.pomodoroSessions.filter (fun s => s.userId == userId)
  let workSessions := sessions.filter (fun s => s.type == "work")
  let totalFocusTime := workSessions.foldl (fun sum s => sum + s.duration) (0 : Int)
  let completedPomodoros := workSessions.length
  { totalFocusTime := totalFocusTime,
    completedPomodoros := completedPomodoros,
    averageSessionLength :=
      if completedPomodoros > 0
      then jsRoundDiv totalFocusTime completedPomodoros
      else 0 }

/-- `getDailyReflection`: lookup by the exact `(userId, date)` pair. -/
def getDailyReflection (userId date : String) (db : DB) : Option DailyReflection :=
  db.dailyReflections.find? (fun r => r.userId == userId && r.date == date)

/-- The update branch of `upsertDailyReflection`. -/
def applyReflectionUpsert (now : Nat) (v : InsertDailyReflection) (r : DailyReflection) :
    DailyReflection :=
  { r with userId := v.userId, date := v.date,
           reflection := v.reflection.getD r.reflection,
           tomorrowPriority := v.tomorrowPriority.getD r.tomorrowPriority,
           energyLevel := v.energyLevel.getD r.energyLevel,
           updatedAt := some now }

/-- The insert branch of `upsertDailyReflection`. -/
def newReflectionRow (newId : String) (now : Nat) (v : InsertDailyReflection) :
    DailyReflection :=
  { id := newId, userId := v.userId, date := v.date,
    reflection := v.reflection.getD none,
    tomorrowPriority := v.tomorrowPriority.getD none,
    energyLevel := v.energyLevel.getD none,
    createdAt := some now, updatedAt := some now }

/-- `upsertDailyReflection`: keyed by `(userId, date)`; update in place when
a row for the pair exists, insert otherwise. -/
def upsertDailyReflection (v : InsertDailyReflection) (newId : String) (now : Nat)
    (db : DB) : DailyReflection × DB :=
  match getDailyReflection v.userId v.date db with
  | some existing =>
      let rows := db.dailyReflections.map
        (fun r => if r.userId == v.userId && r.date == v.date
                  then applyReflectionUpsert now v r else r)
      (applyReflectionUpsert now v existing, { db with dailyReflections := rows })
  | none =>
      (newReflectionRow newId now v,
       { db with dailyReflections := db.dailyReflections ++ [newReflectionRow newId now v] })

/-- `createErrorLog`: plain insert (append-only table). -/
def createErrorLog (e : InsertErrorLog) (newId : String) (now : Nat) (db : DB) :
    ErrorLog × DB :=
  let created : ErrorLog :=
    { id := newId, blockType := e.blockType, errorMessage := e.errorMessage,
      errorStack := e.errorStack.getD none, errorDetails := e.errorDetails.getD none,
      userId := e.userId.getD none, createdAt := some now }
  (created, { db with errorLogs := db.errorLogs ++ [created] })

/-! ## The drizzle-zod insert schemas as JSON decoders -/

/-- Decode a JSON string. -/
def Json.asStr? : Json → Option String
  | .str s => some s
  | _ => none

/-- Decode a JSON integer. -/
def Json.asInt? : Json → Option Int
  | .num n => some n
  | _ => none

/-- Decode a JSON boolean. -/
def Json.asBool? : Json → Option Bool
  | .bool b => some b
  | _ => none

/-- Decode a JSON timestamp (epoch seconds in this embedding). -/
def Json.asNat? : Json → Option Nat
  | .num n => if n < 0 then none else some n.toNat
  | _ => none

/-- Decode a JSON array of strings. -/
def Json.asStrList? : Json → Option (List String)
  | .arr xs => xs.mapM Json.asStr?
  | _ => none

/-- A required (not-null, no-default) schema field. -/
def reqField (dec : Json → Option α) (j : Json) (k : String) : Option α :=
  (j.get? k).bind dec

/-- An optional, nullable schema field: absent keys are allowed, present
`null` is allowed, a present value must decode. -/
def optField (dec : Json → Option α) (j : Json) (k : String) :
    Option (Option (Option α)) :=
  match j.get? k with
  | none => some none
  | some .null => some (some none)
  | some v => (dec v).map (fun x => some (some x))

/-- `insertVisionPlanSchema.parse`. -/
def decodeInsertVisionPlan (j : Json) : Option InsertVisionPlan := do
  let userId ← reqField Json.asStr? j ("userId")
  let coreValues ← optField Json.asStrList? j ("coreValues")
  let threeYearVision ← optField Json.asStr? j ("threeYearVision")
  let whyEngine ← optField Json.asStr? j ("whyEngine")
  some { userId := userId, coreValues := coreValues,
         threeYearVision := threeYearVision, whyEngine := whyEngine }

/-- `insertQuarterlyQuestSchema.parse`. -/
def decodeInsertQuarterlyQuest (j : Json) : Option InsertQuarterlyQuest := do
  let userId ← reqField Json.asStr? j ("userId")
  let title ← reqField Json.asStr? j ("title")
  let goal ← reqField Json.asStr? j ("goal")
  let plan ← reqField Json.asStr? j ("plan")
  let systems ← reqField Json.asStr? j ("systems")
  let quarter ← reqField Json.asStr? j ("quarter")
  let year ← reqField Json.asInt? j ("year")
  let progress ← optField Json.asInt? j ("progress")
  let isActive ← optField Json.asBool? j ("isActive")
  some { userId := userId, title := title, goal := goal, plan := plan,
         systems := systems, quarter := quarter, year := year,
         progress := progress, isActive := isActive }

/-- `insertWeeklyPlanSchema.parse`. -/
def decodeInsertWeeklyPlan (j : Json) : Option InsertWeeklyPlan := do
  let userId ← reqField Json.asStr? j ("userId")
  let quarterlyQuestId ← optField Json.asStr? j ("quarterlyQuestId")
  let weekStartDate ← reqField Json.asStr? j ("weekStartDate")
  let priorities ← optField (fun v => some v) j ("priorities")
  let reflection ← optField (fun v => some v) j ("reflection")
  let progress ← optField Json.asInt? j ("progress")
  some { userId := userId, quarterlyQuestId := quarterlyQuestId,
         weekStartDate := weekStartDate, priorities := priorities,
         reflection := reflection, progress := progress }

/-- `insertDailyTaskSchema.parse`; the schema omits `completedAt`, and zod
strips unknown keys, so a `completedAt` in the body never reaches a create. -/
def decodeInsertDailyTask (j : Json) : Option InsertDailyTask := do
  let userId ← reqField Json.asStr? j ("userId")
  let weeklyPlanId ← optField Json.asStr? j ("weeklyPlanId")
  let title ← reqField Json.asStr? j ("title")
  let description ← optField Json.asStr? j ("description")
  let impact ← reqField Json.asStr? j ("impact")
  let isCompleted ← optField Json.asBool? j ("isCompleted")
  let date ← reqField Json.asStr? j ("date")
  let pomodoroCount ← optField Json.asInt? j ("pomodoroCount")
  some { userId := userId, weeklyPlanId := weeklyPlanId, title := title,
         description := description, impact := impact,
         isCompleted := isCompleted, date := date,
         pomodoroCount := pomodoroCount }

/-- `insertPomodoroSessionSchema.parse`. -/
def decodeInsertPomodoroSession (j : Json) : Option InsertPomodoroSession := do
  let userId ← reqField Json.asStr? j ("userId")
  let taskId ← optField Json.asStr? j ("taskId")
  let duration ← reqField Json.asInt? j ("duration")
  let type ← reqField Json.asStr? j ("type")
  let completedAt ← reqField Json.asNat? j ("completedAt")
  some { userId := userId, taskId := taskId, duration := duration,
         type := type, completedAt := completedAt }

/-- `insertDailyReflectionSchema.parse`. -/
def decodeInsertDailyReflection (j : Json) : Option InsertDailyReflection := do
  let userId ← reqField Json.asStr? j ("userId")
  let date ← reqField Json.asStr? j ("date")
  let reflection ← optField Json.asStr? j ("reflection")
  let tomorrowPriority ← optField Json.asStr? j ("tomorrowPriority")
  let energyLevel ← optField Json.asInt? j ("energyLevel")
  some { userId := userId, date := date, reflection := reflection,
         tomorrowPriority := tomorrowPriority, energyLevel := energyLevel }

/-- Modelled from the spec: `insertErrorLogSchema.parse` for the missing
`error_logs` schema declaration. -/
def decodeInsertErrorLog (j : Json) : Option InsertErrorLog := do
  let blockType ← reqField Json.asStr? j ("blockType")
  let errorMessage ← reqField Json.asStr? j ("errorMessage")
  let errorStack ← optField Json.asStr? j ("errorStack")
  let errorDetails ← optField (fun v => some v) j ("errorDetails")
  let userId ← optField Json.asStr? j ("userId")
  some { blockType := blockType, errorMessage := errorMessage,
         errorStack := errorStack, errorDetails := errorDetails,
         userId := userId }

/-! ## Raw PATCH bodies reaching the update operations

The PATCH routes pass `req.body` to the storage layer unvalidated; drizzle's
`set` picks out the known column keys. A present key whose value cannot be
written to the column makes the SQL statement fail (the route's catch maps
that to a client error with the store unchanged); `updatedAt` (and, for
tasks with `isCompleted` present, `completedAt`) is overwritten inside the
update object before the statement is built, so its body value is never
written. -/

/-- Extract a not-null string column from a raw patch body. -/
def bodyStr? (j : Json) (k : String) : Option (Option String) :=
  match j.get? k with
  | none => some none
  | some (.str s) => some (some s)
  | some _ => none

/-- Extract a not-null integer column from a raw patch body. -/
def bodyInt? (j : Json) (k : String) : Option (Option Int) :=
  match j.get? k with
  | none => some none
  | some (.num n) => some (some n)
  | some _ => none

/-- Extract a nullable string column from a raw patch body. -/
def bodyNulStr? (j : Json) (k : String) : Option (Option (Option String)) :=
  match j.get? k with
  | none => some none
  | some .null => some (some none)
  | some (.str s) => some (some (some s))
  | some _ => none

/-- Extract a nullable integer column from a raw patch body. -/
def bodyNulInt? (j : Json) (k : String) : Option (Option (Option Int)) :=
  match j.get? k with
  | none => some none
  | some .null => some (some none)
  | some (.num n) => some (some (some n))
  | some _ => none

/-- Extract a nullable boolean column from a raw patch body. -/
def bodyNulBool? (j : Json) (k : String) : Option (Option (Option Bool)) :=
  match j.get? k with
  | none => some none
  | some .null => some (some none)
  | some (.bool b) => some (some (some b))
  | some _ => none

/-- Extract a nullable timestamp column from a raw patch body. -/
def bodyNulNat? (j : Json) (k : String) : Option (Option (Option Nat)) :=
  match j.get? k with
  | none => some none
  | some .null => some (some none)
  | some (.num n) => if n < 0 then none else some (some (some n.toNat))
  | some _ => none

/-- Extract a nullable jsonb column from a raw patch body. -/
def bodyNulJson? (j : Json) (k : String) : Option (Option (Option Json)) :=
  match j.get? k with
  | none => some none
  | some .null => some (some none)
  | some v => some (some (some v))

/-- The spread `{...req.body, updatedAt: now()}` as a quest patch: every
known column key of the raw body is taken verbatim (no allow-list);
`updatedAt` is overwritten, so its body value is discarded. -/
def bodyToQuestPatch (j : Json) : Option QuestPatch := do
  let id ← bodyStr? j ("id")
  let userId ← bodyStr? j ("userId")
  let title ← bodyStr? j ("title")
  let goal ← bodyStr? j ("goal")
  let plan ← bodyStr? j ("plan")
  let systems ← bodyStr? j ("systems")
  let quarter ← bodyStr? j ("quarter")
  let year ← bodyInt? j ("year")
  let progress ← bodyNulInt? j ("progress")
  let isActive ← bodyNulBool? j ("isActive")
  let createdAt ← bodyNulNat? j ("createdAt")
  some { id := id, userId := userId, title := title, goal := goal,
         plan := plan, systems := systems, quarter := quarter, year := year,
         progress := progress, isActive := isActive, createdAt := createdAt,
         updatedAt := none }

/-- The spread `{...req.body, updatedAt: now()}` as a weekly-plan patch. -/
def bodyToWeeklyPlanPatch (j : Json) : Option WeeklyPlanPatch := do
  let id ← bodyStr? j ("id")
  let userId ← bodyStr? j ("userId")
  let quarterlyQuestId ← bodyNulStr? j ("quarterlyQuestId")
  let weekStartDate ← bodyStr? j ("weekStartDate")
  let priorities ← bodyNulJson? j ("priorities")
  let reflection ← bodyNulJson? j ("reflection")
  let progress ← bodyNulInt? j ("progress")
  let createdAt ← bodyNulNat? j ("createdAt")
  some { id := id, userId := userId, quarterlyQuestId := quarterlyQuestId,
         weekStartDate := weekStartDate, priorities := priorities,
         reflection := reflection, progress := progress,
         createdAt := createdAt, updatedAt := none }

/-- The raw body as a task patch: when `isCompleted` is present the update
object's `completedAt` is overwritten by the derivation before the statement
is built, so the body's `completedAt` is discarded in that case and taken
verbatim otherwise. -/
def bodyToTaskPatch (j : Json) : Option TaskPatch := do
  let id ← bodyStr? j ("id")
  let userId ← bodyStr? j ("userId")
  let weeklyPlanId ← bodyNulStr? j ("weeklyPlanId")
  let title ← bodyStr? j ("title")
  let description ← bodyNulStr? j ("description")
  let impact ← bodyStr? j ("impact")
  let isCompleted ← bodyNulBool? j ("isCompleted")
  let completedAt ←
    match isCompleted with
    | some _ => some none
    | none => bodyNulNat? j ("completedAt")
  let date ← bodyStr? j ("date")
  let pomodoroCount ← bodyNulInt? j ("pomodoroCount")
  let createdAt ← bodyNulNat? j ("createdAt")
  some { id := id, userId := userId, weeklyPlanId := weeklyPlanId,
         title := title, description := description, impact := impact,
         isCompleted := isCompleted, completedAt := completedAt, date := date,
         pomodoroCount := pomodoroCount, createdAt := createdAt,
         updatedAt := none }

/-! ## Route handlers (`server/routes.ts`)

Each handler returns the HTTP status together with the resulting store; the
authenticated `userId` comes from the session. A zod parse failure is caught
and answered with 400 before any storage call; a storage-level failure is
caught and answered with 400 after the fact. -/

/-- `POST /api/vision`. -/
def postVision (userId : String) (body : Json) (newId : String) (now : Nat)
    (db : DB) : Nat × DB :=
  match decodeInsertVisionPlan (body.setKey ("userId") (.str userId)) with
  | some v => (200, (upsertVisionPlan v newId now db).2)
  | none => (400, db)

/-- `POST /api/quarterly-quests`. -/
def postQuarterlyQuests (userId : String) (body : Json) (newId : String) (now : Nat)
    (db : DB) : Nat × DB :=
  match decodeInsertQuarterlyQuest (body.setKey ("userId") (.str userId)) with
  | some q => (200, (createQuarterlyQuest q newId now db).2)
  | none => (400, db)

/-- `PATCH /api/quarterly-quests/:id`: the body is forwarded raw. -/
def patchQuarterlyQuest (userId questId : String) (body : Json) (now : Nat)
    (db : DB) : Nat × DB :=
  match bodyToQuestPatch body with
  | some p => (200, (updateQuarterlyQuest questId userId p now db).2)
  | none => (400, db)

/-- `POST /api/weekly-plans`. -/
def postWeeklyPlans (userId : String) (body : Json) (newId : String) (now : Nat)
    (db : DB) : Nat × DB :=
  match decodeInsertWeeklyPlan (body.setKey ("userId") (.str userId)) with
  | some w => (200, (createWeeklyPlan w newId now db).2)
  | none => (400, db)

/-- `PATCH /api/weekly-plans/:id`: the body is forwarded raw. -/
def patchWeeklyPlan (userId planId : String) (body : Json) (now : Nat)
    (db : DB) : Nat × DB :=
  match bodyToWeeklyPlanPatch body with
  | some p => (200, (updateWeeklyPlan planId userId p now db).2)
  | none => (400, db)

/-- `POST /api/daily-tasks`. -/
def postDailyTasks (userId : String) (body : Json) (newId : String) (now : Nat)
    (db : DB) : Nat × DB :=
  match decodeInsertDailyTask (body.setKey ("userId") (.str userId)) with
  | some t => (200, (createDailyTask t newId now db).2)
  | none => (400, db)

/-- `PATCH /api/daily-tasks/:id`: the body is forwarded raw. -/
def patchDailyTask (userId taskId : String) (body : Json) (now : Nat)
    (db : DB) : Nat × DB :=
  match bodyToTaskPatch body with
  | some p => (200, (updateDailyTask taskId userId p now db).2)
  | none => (400, db)

/-- `DELETE /api/daily-tasks/:id`. -/
def deleteDailyTaskRoute (userId taskId : String) (db : DB) : Nat × DB :=
  (200, deleteDailyTask taskId userId db)

/-- `POST /api/pomodoro-sessions`. -/
def postPomodoroSessions (userId : String) (body : Json) (newId : String) (now : Nat)
    (db : DB) : Nat × DB :=
  match decodeInsertPomodoroSession (body.setKey ("userId") (.str userId)) with
  | some s => (200, (createPomodoroSession s newId now db).2)
  | none => (400, db)

/-- `POST /api/daily-reflections`. -/
def postDailyReflections (userId : String) (body : Json) (newId : String) (now : Nat)
    (db : DB) : Nat × DB :=
  match decodeInsertDailyReflection (body.setKey ("userId") (.str userId)) with
  | some r => (200, (upsertDailyReflection r newId now db).2)
  | none => (400, db)

/-- `POST /api/error-logs` (no session, body parsed as-is). -/
def postErrorLogs (body : Json) (newId : String) (now : Nat) (db : DB) : Nat × DB :=
  match decodeInsertErrorLog body with
  | some e => (200, (createErrorLog e newId now db).2)
  | none => (400, db)

/-! ## The client-side `useOnboarding` hook (pure part) -/

/-- JavaScript truthiness of a nullable string: null, undefined and the
empty string are falsy. -/
def truthyStr : Option String → Bool
  | some s => !(s == "")
  | none => false

/-- `hasLifeCompass`:
`!!(visionPlan?.coreValues?.length && visionPlan?.threeYearVision && visionPlan?.whyEngine)`. -/
def hasLifeCompass (visionPlan : Option VisionPlan) : Bool :=
  match visionPlan with
  | none => false
  | some p =>
      (match p.coreValues with
       | some vs => !(vs.length == 0)
       | none => false)
      && truthyStr p.threeYearVision && truthyStr p.whyEngine

/-- `hasQuarterlyQuests`:
`!!(quarterlyQuests?.length && quarterlyQuests.some(q => q.isActive))`. -/
def hasQuarterlyQuests (quests : Option (List QuarterlyQuest)) : Bool :=
  match quests with
  | none => false
  | some qs => !(qs.length == 0) && qs.any (fun q => q.isActive == some true)

/-- One entry of the `steps` array built by `useOnboarding`. -/
structure OnboardingStep where
  id : String
  title : String
  description : String
  isCompleted : Bool
  isActive : Bool
  route : String
deriving Repr, DecidableEq

/-- The `steps` array of `useOnboarding` (`hasVisionBoard = hasLifeCompass`). -/
def onboardingSteps (visionPlan : Option VisionPlan)
    (quests : Option (List QuarterlyQuest)) : List OnboardingStep :=
  let hlc := hasLifeCompass visionPlan
  let hvb := hlc
  let hqq := hasQuarterlyQuests quests
  [ { id := "life-compass", title := "Life Compass",
      description := "Define your core values, 3-year vision, and purpose",
      isCompleted := hlc, isActive := !hlc, route := "/life-compass" },
    { id := "vision-board", title := "Vision Board",
      description := "Create visual representations of your goals and dreams",
      isCompleted := hvb && hlc, isActive := hlc && !hvb, route := "/vision-board" },
    { id := "quarterly-quests", title := "Quarterly Quests",
      description := "Set 90-day goals with clear plans and systems",
      isCompleted := hqq, isActive := hlc && !hqq, route := "/quarterly-quests" },
    { id := "weekly-planning", title := "Weekly Planning",
      description := "Plan your weeks to support your quarterly goals",
      isCompleted := false, isActive := hqq, route := "/weekly-planning" },
    { id := "daily-execution", title := "Daily Execution",
      description := "Manage daily tasks and track progress",
      isCompleted := false, isActive := hqq, route := "/daily-tasks" } ]

/-- `isOnboardingComplete = hasLifeCompass && hasVisionBoard && hasQuarterlyQuests`. -/
def isOnboardingComplete (visionPlan : Option VisionPlan)
    (quests : Option (List QuarterlyQuest)) : Bool :=
  hasLifeCompass visionPlan && hasLifeCompass visionPlan && hasQuarterlyQuests quests

/-! ## Specification helpers and basic list lemmas -/

/-- The aggregation step of `getPomodoroStats` as a function of a session
list: work-filter, then sum / count / rounded mean. -/
def pomStatsOfSessions (l : List PomodoroSession) : PomodoroStats :=
  let workSessions := l.filter (fun s => s.type == "work")
  let totalFocusTime := workSessions.foldl (fun sum s => sum + s.duration) (0 : Int)
  let completedPomodoros := workSessions.length
  { totalFocusTime := totalFocusTime,
    completedPomodoros := completedPomodoros,
    averageSessionLength :=
      if completedPomodoros > 0
      then jsRoundDiv totalFocusTime completedPomodoros
      else 0 }

/-! ## Concrete fixtures used by counterexamples and witnesses -/

/-- The empty store. -/
def emptyDB : DB :=
  { users := [], visionPlans := [], quarterlyQuests := [], weeklyPlans := [],
    dailyTasks := [], pomodoroSessions := [], dailyReflections := [],
    errorLogs := [] }

/-- A pomodoro session of user `u1`, completed on day 1. -/
def sessionFixture (i : String) (dur : Int) (ty : String) : PomodoroSession :=
  { id := i, userId := "u1", taskId := none, duration := dur, type := ty,
    completedAt := 86400, createdAt := none }

/-- Store holding the spec's worked pomodoro example: durations
`[1500, 1500, 300]` with types `["work", "work", "break"]`. -/
def dbPom : DB :=
  { emptyDB with pomodoroSessions :=
      [sessionFixture ("s1") 1500 ("work"), sessionFixture ("s2") 1500 ("work"),
       sessionFixture ("s3") 300 ("break")] }

/-- A daily task owned by user `u1`. -/
def taskFixture : DailyTask :=
  { id := "t1", userId := "u1", weeklyPlanId := none, title := "write",
    description := none, impact := "high", isCompleted := some false,
    completedAt := none, date := "d1", pomodoroCount := some 0,
    createdAt := some 1, updatedAt := some 1 }

/-- A daily reflection of user `u1` on date `d1`. -/
def reflFixture : DailyReflection :=
  { id := "r1", userId := "u1", date := "d1", reflection := some "ok",
    tomorrowPriority := none, energyLevel := some 3,
    createdAt := some 1, updatedAt := some 1 }

/-- A quarterly quest owned by user `u1`. -/
def questFixture : QuarterlyQuest :=
  { id := "q1", userId := "u1", title := "ship", goal := "launch",
    plan := "steps", systems := "habits", quarter := "Q1 2025", year := 2025,
    progress := some 0, isActive := some true,
    createdAt := some 1, updatedAt := some 1 }

/-- Store holding `reflFixture` only. -/
def dbRefl : DB :=
  { emptyDB with dailyReflections := [reflFixture] }

/-- Store holding `questFixture` only. -/
def dbQuest : DB :=
  { emptyDB with quarterlyQuests := [questFixture] }

/-- Store holding `taskFixture` only. -/
def dbTask : DB :=
  { emptyDB with dailyTasks := [taskFixture] }

/-- A fully-present vision-plan payload for user `u1`. -/
def visionPayloadFixture : InsertVisionPlan :=
  { userId := "u1", coreValues := some (some ["balance"]),
    threeYearVision := some (some "v"), whyEngine := some (some "w") }

/-- A daily-reflection payload for user `u1`, date `d1`. -/
def reflPayloadFixture : InsertDailyReflection :=
  { userId := "u1", date := "d1", reflection := some (some "ok") }

/-- A patch carrying only a caller-chosen `completedAt`, without
`isCompleted`. -/
def bypassPatch : TaskPatch :=
  { completedAt := some (some 42) }

/-- The empty patch (a PATCH body with no known column keys). -/
def emptyQuestPatch : QuestPatch :=
  {}

/-- A PATCH body carrying only a `progress` value; it fails the quest insert
schema (title, goal, plan, systems, quarter, year are required). -/
def progressOnlyBody : Json :=
  .obj [("progress", .num 50)]

/-- A vision plan with exactly one core value and non-empty vision and
purpose strings. -/
def oneValueVisionPlan : VisionPlan :=
  { id := "v1", userId := "u1", coreValues := some ["focus"],
    threeYearVision := some "become", whyEngine := some "impact",
    createdAt := none, updatedAt := none }

/-- The singleton invariants: at most one VisionPlan row per user, at most
one DailyReflection row per `(user, date)` pair. -/
def SingletonInv (db : DB) : Prop :=
  (∀ u : String, (db.visionPlans.filter (fun r => r.userId == u)).length ≤ 1)
  ∧ (∀ u d : String,
      (db.dailyReflections.filter (fun r => r.userId == u && r.date == d)).length ≤ 1)

theorem jsRoundDiv_eq_floor (a : Int) (b : Nat) (hb : 0 < b) :
    jsRoundDiv a b = ⌊((a : ℚ) / (b : ℚ) + 1 / 2)⌋ := by
  have h1 : ((a : ℚ) / (b : ℚ) + 1 / 2) = ((2 * a + (b : Int) : Int) : ℚ) / ((2 * b : Nat) : ℚ) := by
    have hb0 : ((b : ℚ)) ≠ 0 := by positivity
    push_cast
    field_simp
    ring
  rw [jsRoundDiv, h1, Rat.floor_intCast_div_natCast]
  norm_num

theorem find?_eq_head?_filter (p : α → Bool) (l : List α) :
    l.find? p = (l.filter p).head? := by
  induction l with
  | nil => rfl
  | cons x xs ih =>
      cases h : p x
      · rw [List.find?_cons_of_neg xs (by simp [h]),
            List.filter_cons_of_neg (by simp [h]), ih]
      · rw [List.find?_cons_of_pos xs h, List.filter_cons_of_pos h]
        rfl

theorem filter_fuse (p q : α → Bool) (l : List α) :
    (l.filter q).filter p = l.filter (fun a => q a && p a) := by
  rw [List.filter_filter]
  congr 1
  funext a
  exact Bool.and_comm (p a) (q a)

theorem find?_fuse (p q : α → Bool) (l : List α) :
    (l.filter q).find? p = l.find? (fun a => q a && p a) := by
  rw [find?_eq_head?_filter, find?_eq_head?_filter, filter_fuse]

theorem filter_map_comm (f : α → α) (p : α → Bool) (l : List α) :
    (l.map f).filter p = (l.filter (fun a => p (f a))).map f := by
  rw [List.filter_map]
  rfl

theorem length_filter_map_inv (f : α → α) (p : α → Bool)
    (h : ∀ a, p (f a) = p a) (l : List α) :
    ((l.map f).filter p).length = (l.filter p).length := by
  rw [filter_map_comm, List.length_map,
      show (fun a => p (f a)) = p from funext h]

theorem mem_map_of_fixed (f : α → α) (r : α) (l : List α)
    (hr : r ∈ l) (hf : f r = r) : r ∈ l.map f :=
  hf ▸ List.mem_map_of_mem f hr

theorem foldl_add_eq_sum (l : List PomodoroSession) (init : Int) :
    l.foldl (fun sum s => sum + s.duration) init
      = init + (l.map (fun s => s.duration)).sum := by
  induction l generalizing init with
  | nil => simp
  | cons x xs ih =>
      simp only [List.foldl_cons, List.map_cons, List.sum_cons, ih]
      ring

/-! ## Claim theorems -/

/-- C1. Ownership scoping: every listed Data Access Layer read is a function
of the sublist of rows whose `userId` equals the given user (stated as an
equation computing the result from that sublist), and every listed write
leaves each row owned by a different user in the store unchanged; the update
operations' returned row is likewise a function of the caller's own rows. -/
theorem claim_C1 :
    (∀ (u : String) (db : DB),
       getVisionPlan u db = (db.visionPlans.filter (fun r => r.userId == u)).head?)
    ∧ (∀ (u : String) (db : DB),
       getQuarterlyQuests u db = db.quarterlyQuests.filter (fun q => q.userId == u))
    ∧ (∀ (u ws : String) (db : DB),
       getWeeklyPlans u (some ws) db =
         (getWeeklyPlans u none db).filter (fun p => p.weekStartDate == ws))
    ∧ (∀ (u : String) (db : DB),
       getWeeklyPlans u none db = db.weeklyPlans.filter (fun p => p.userId == u))
    ∧ (∀ (u d : String) (db : DB),
       getDailyTasks u (some d) db =
         (getDailyTasks u none db).filter (fun t => t.date == d))
    ∧ (∀ (u : String) (db : DB),
       getDailyTasks u none db = db.dailyTasks.filter (fun t => t.userId == u))
    ∧ (∀ (u d : String) (db : DB),
       getPomodoroStats u (some d) db =
         pomStatsOfSessions ((db.pomodoroSessions.filter (fun s => s.userId == u)).filter
           (fun s => dateOfTimestamp s.completedAt == d)))
    ∧ (∀ (u : String) (db : DB),
       getPomodoroStats u none db =
         pomStatsOfSessions (db.pomodoroSessions.filter (fun s => s.userId == u)))
    ∧ (∀ (u d : String) (db : DB),
       getDailyReflection u d db =
         (db.dailyReflections.filter (fun r => r.userId == u)).find? (fun r => r.date == d))
    ∧ (∀ (qid u : String) (p : QuestPatch) (now : Nat) (db : DB),
       (updateQuarterlyQuest qid u p now db).1 =
         ((db.quarterlyQuests.filter (fun q => q.userId == u)).find?
           (fun q => q.id == qid)).map (applyQuestPatch now p))
    ∧ (∀ (pid u : String) (p : WeeklyPlanPatch) (now : Nat) (db : DB),
       (updateWeeklyPlan pid u p now db).1 =
         ((db.weeklyPlans.filter (fun w => w.userId == u)).find?
           (fun w => w.id == pid)).map (applyWeeklyPlanPatch now p))
    ∧ (∀ (tid u : String) (p : TaskPatch) (now : Nat) (db : DB),
       (updateDailyTask tid u p now db).1 =
         ((db.dailyTasks.filter (fun t => t.userId == u)).find?
           (fun t => t.id == tid)).map (applyTaskPatch now p))
    ∧ (∀ (v : InsertVisionPlan) (i : String) (n : Nat) (db : DB),
       (upsertVisionPlan v i n db).1 =
         match (db.visionPlans.filter (fun r => r.userId == v.userId)).head? with
         | some e => applyVisionUpsert n v e
         | none => newVisionPlanRow i n v)
    ∧ (∀ (v : InsertDailyReflection) (i : String) (n : Nat) (db : DB),
       (upsertDailyReflection v i n db).1 =
         match (db.dailyReflections.filter (fun r => r.userId == v.userId)).find?
                 (fun r => r.date == v.date) with
         | some e => applyReflectionUpsert n v e
         | none => newReflectionRow i n v)
    ∧ (∀ (qid u : String) (p : QuestPatch) (now : Nat) (db : DB) (r : QuarterlyQuest),
       r ∈ db.quarterlyQuests → r.userId ≠ u →
       r ∈ (updateQuarterlyQuest qid u p now db).2.quarterlyQuests)
    ∧ (∀ (pid u : String) (p : WeeklyPlanPatch) (now : Nat) (db : DB) (r : WeeklyPlan),
       r ∈ db.weeklyPlans → r.userId ≠ u →
       r ∈ (updateWeeklyPlan pid u p now db).2.weeklyPlans)
    ∧ (∀ (tid u : String) (p : TaskPatch) (now : Nat) (db : DB) (r : DailyTask),
       r ∈ db.dailyTasks → r.userId ≠ u →
       r ∈ (updateDailyTask tid u p now db).2.dailyTasks)
    ∧ (∀ (tid u : String) (db : DB) (r : DailyTask),
       r ∈ db.dailyTasks → r.userId ≠ u →
       r ∈ (deleteDailyTask tid u db).dailyTasks)
    ∧ (∀ (v : InsertVisionPlan) (i : String) (n : Nat) (db : DB) (r : VisionPlan),
       r ∈ db.visionPlans → r.userId ≠ v.userId →
       r ∈ (upsertVisionPlan v i n db).2.visionPlans)
    ∧ (∀ (v : InsertDailyReflection) (i : String) (n : Nat) (db : DB) (r : DailyReflection),
       r ∈ db.dailyReflections → r.userId ≠ v.userId →
       r ∈ (upsertDailyReflection v i n db).2.dailyReflections) := by
  refine ⟨?_, ?_, ?_, ?_, ?_, ?_, ?_, ?_, ?_, ?_, ?_, ?_, ?_, ?_, ?_, ?_, ?_, ?_, ?_, ?_⟩
  · intro u db
    exact find?_eq_head?_filter _ _
  · intro u db
    rfl
  · intro u ws db
    simp only [getWeeklyPlans, filter_fuse]
  · intro u db
    rfl
  · intro u d db
    simp only [getDailyTasks, filter_fuse]
  · intro u db
    rfl
  · intro u d db
    simp only [getPomodoroStats, pomStatsOfSessions, filter_fuse]
  · intro u db
    simp only [getPomodoroStats, pomStatsOfSessions]
  · intro u d db
    rw [find?_fuse]
    rfl
  · intro qid u p now db
    simp only [updateQuarterlyQuest]
    rw [find?_fuse,
        show (fun (a : QuarterlyQuest) => a.userId == u && a.id == qid)
          = (fun a => a.id == qid && a.userId == u) from funext fun a => Bool.and_comm _ _]
  · intro pid u p now db
    simp only [updateWeeklyPlan]
    rw [find?_fuse,
        show (fun (a : WeeklyPlan) => a.userId == u && a.id == pid)
          = (fun a => a.id == pid && a.userId == u) from funext fun a => Bool.and_comm _ _]
  · intro tid u p now db
    simp only [updateDailyTask]
    rw [find?_fuse,
        show (fun (a : DailyTask) => a.userId == u && a.id == tid)
          = (fun a => a.id == tid && a.userId == u) from funext fun a => Bool.and_comm _ _]
  · intro v i n db
    rw [← find?_eq_head?_filter]
    cases h : db.visionPlans.find? (fun r => r.userId == v.userId) with
    | none => simp only [upsertVisionPlan, getVisionPlan, h]
    | some e => simp only [upsertVisionPlan, getVisionPlan, h]
  · intro v i n db
    rw [find?_fuse]
    cases h : db.dailyReflections.find? (fun r => r.userId == v.userId && r.date == v.date) with
    | none => simp only [upsertDailyReflection, getDailyReflection, h]
    | some e => simp only [upsertDailyReflection, getDailyReflection, h]
  · intro qid u p now db r hr hne
    simp only [updateQuarterlyQuest]
    exact mem_map_of_fixed _ r _ hr (by simp [hne])
  · intro pid u p now db r hr hne
    simp only [updateWeeklyPlan]
    exact mem_map_of_fixed _ r _ hr (by simp [hne])
  · intro tid u p now db r hr hne
    simp only [updateDailyTask]
    exact mem_map_of_fixed _ r _ hr (by simp [hne])
  · intro tid u db r hr hne
    simp only [deleteDailyTask]
    exact List.mem_filter_of_mem hr (by simp [hne])
  · intro v i n db r hr hne
    cases h : db.visionPlans.find? (fun q => q.userId == v.userId) with
    | none =>
        simp only [upsertVisionPlan, getVisionPlan, h]
        exact List.mem_append_left _ hr
    | some e =>
        simp only [upsertVisionPlan, getVisionPlan, h]
        exact mem_map_of_fixed _ r _ hr (by simp [hne])
  · intro v i n db r hr hne
    cases h : db.dailyReflections.find? (fun q => q.userId == v.userId && q.date == v.date) with
    | none =>
        simp only [upsertDailyReflection, getDailyReflection, h]
        exact List.mem_append_left _ hr
    | some e =>
        simp only [upsertDailyReflection, getDailyReflection, h]
        exact mem_map_of_fixed _ r _ hr (by simp [hne])

theorem upsertVisionPlan_count (v : InsertVisionPlan) (i : String) (n : Nat) (db : DB) :
    ((upsertVisionPlan v i n db).2.visionPlans.filter (fun r => r.userId == v.userId)).length =
      if (db.visionPlans.filter (fun r => r.userId == v.userId)).length = 0 then 1
      else (db.visionPlans.filter (fun r => r.userId == v.userId)).length := by
  cases h : db.visionPlans.find? (fun r => r.userId == v.userId) with
  | none =>
      have hnil : db.visionPlans.filter (fun r => r.userId == v.userId) = [] :=
        List.filter_eq_nil_iff.mpr (fun a ha => by simpa using List.find?_eq_none.mp h a ha)
      simp only [upsertVisionPlan, getVisionPlan, h, List.filter_append, hnil]
      simp [newVisionPlanRow]
  | some e =>
      have hp := List.find?_some h
      have hm := List.mem_of_find?_eq_some h
      have he : e ∈ db.visionPlans.filter (fun r => r.userId == v.userId) :=
        List.mem_filter_of_mem hm hp
      have hne : (db.visionPlans.filter (fun r => r.userId == v.userId)).length ≠ 0 := by
        intro h0
        rw [List.length_eq_zero.mp h0] at he
        exact (List.not_mem_nil e) he
      simp only [upsertVisionPlan, getVisionPlan, h]
      rw [length_filter_map_inv _ _
        (fun a => by cases hh : (a.userId == v.userId) <;> simp [applyVisionUpsert, hh])]
      rw [if_neg hne]

theorem upsertVisionPlan_count_other (v : InsertVisionPlan) (i : String) (n : Nat)
    (db : DB) (u : String) (hne : u ≠ v.userId) :
    ((upsertVisionPlan v i n db).2.visionPlans.filter (fun r => r.userId == u)).length =
      (db.visionPlans.filter (fun r => r.userId == u)).length := by
  cases h : db.visionPlans.find? (fun r => r.userId == v.userId) with
  | none =>
      simp only [upsertVisionPlan, getVisionPlan, h, List.filter_append, List.length_append]
      have hbu : ((newVisionPlanRow i n v).userId == u) = false := by
        simp only [newVisionPlanRow]
        exact beq_eq_false_iff_ne.mpr (fun hc => hne hc.symm)
      rw [List.filter_cons_of_neg (by simp [hbu]), List.filter_nil]
      simp
  | some e =>
      simp only [upsertVisionPlan, getVisionPlan, h]
      apply length_filter_map_inv
      intro a
      by_cases hh : (a.userId == v.userId) = true
      · have ha : a.userId = v.userId := beq_iff_eq.mp hh
        rw [if_pos hh]
        simp [applyVisionUpsert, ha]
      · rw [if_neg hh]

theorem upsertVisionPlan_fields (v : InsertVisionPlan) (i : String) (n : Nat) (db : DB)
    (cv : Option (List String)) (tv we : Option String)
    (hcv : v.coreValues = some cv) (htv : v.threeYearVision = some tv)
    (hwe : v.whyEngine = some we) :
    ∀ r ∈ (upsertVisionPlan v i n db).2.visionPlans, r.userId = v.userId →
      r.coreValues = cv ∧ r.threeYearVision = tv ∧ r.whyEngine = we := by
  intro r hr hu
  cases h : db.visionPlans.find? (fun q => q.userId == v.userId) with
  | none =>
      simp only [upsertVisionPlan, getVisionPlan, h] at hr
      rcases List.mem_append.mp hr with hold | hnew
      · exact absurd (show ((fun q : VisionPlan => q.userId == v.userId) r = true) by simp [hu])
          (List.find?_eq_none.mp h r hold)
      · have : r = newVisionPlanRow i n v := by simpa using hnew
        subst this
        simp [newVisionPlanRow, hcv, htv, hwe]
  | some e =>
      simp only [upsertVisionPlan, getVisionPlan, h] at hr
      rcases List.mem_map.mp hr with ⟨a, _, hfa⟩
      by_cases hm : (a.userId == v.userId) = true
      · rw [if_pos hm] at hfa
        subst hfa
        simp [applyVisionUpsert, hcv, htv, hwe]
      · rw [if_neg hm] at hfa
        subst hfa
        exact absurd (by simp [hu]) hm

theorem upsertDailyReflection_count (v : InsertDailyReflection) (i : String) (n : Nat)
    (db : DB) :
    ((upsertDailyReflection v i n db).2.dailyReflections.filter
      (fun r => r.userId == v.userId && r.date == v.date)).length =
      if (db.dailyReflections.filter
           (fun r => r.userId == v.userId && r.date == v.date)).length = 0 then 1
      else (db.dailyReflections.filter
           (fun r => r.userId == v.userId && r.date == v.date)).length := by
  cases h : db.dailyReflections.find? (fun r => r.userId == v.userId && r.date == v.date) with
  | none =>
      have hnil : db.dailyReflections.filter
          (fun r => r.userId == v.userId && r.date == v.date) = [] :=
        List.filter_eq_nil_iff.mpr (fun a ha => by simpa using List.find?_eq_none.mp h a ha)
      simp only [upsertDailyReflection, getDailyReflection, h, List.filter_append, hnil]
      simp [newReflectionRow]
  | some e =>
      have hp := List.find?_some h
      have hm := List.mem_of_find?_eq_some h
      have he : e ∈ db.dailyReflections.filter
          (fun r => r.userId == v.userId && r.date == v.date) :=
        List.mem_filter_of_mem hm hp
      have hne : (db.dailyReflections.filter
          (fun r => r.userId == v.userId && r.date == v.date)).length ≠ 0 := by
        intro h0
        rw [List.length_eq_zero.mp h0] at he
        exact (List.not_mem_nil e) he
      simp only [upsertDailyReflection, getDailyReflection, h]
      rw [length_filter_map_inv _ _
        (fun a => by
          cases hh : (a.userId == v.userId && a.date == v.date) <;>
            simp [applyReflectionUpsert, hh])]
      rw [if_neg hne]

theorem upsertDailyReflection_count_other (v : InsertDailyReflection) (i : String)
    (n : Nat) (db : DB) (u d : String) (hne : ¬(v.userId = u ∧ v.date = d)) :
    ((upsertDailyReflection v i n db).2.dailyReflections.filter
      (fun r => r.userId == u && r.date == d)).length =
      (db.dailyReflections.filter (fun r => r.userId == u && r.date == d)).length := by
  have hfalse : ((v.userId == u) && (v.date == d)) = false := by
    rcases not_and_or.mp hne with hc | hc
    · simp [beq_eq_false_iff_ne.mpr hc]
    · simp [beq_eq_false_iff_ne.mpr hc]
  cases h : db.dailyReflections.find? (fun r => r.userId == v.userId && r.date == v.date) with
  | none =>
      simp only [upsertDailyReflection, getDailyReflection, h, List.filter_append,
                 List.length_append]
      have hbu : (((newReflectionRow i n v).userId == u)
          && ((newReflectionRow i n v).date == d)) = false := by
        simpa [newReflectionRow] using hfalse
      rw [List.filter_cons_of_neg (by simp [Bool.and_eq_true] at hbu ⊢; tauto), List.filter_nil]
      simp
  | some e =>
      simp only [upsertDailyReflection, getDailyReflection, h]
      apply length_filter_map_inv
      intro a
      by_cases hh : (a.userId == v.userId && a.date == v.date) = true
      · have ha1 : a.userId = v.userId := beq_iff_eq.mp (Bool.and_elim_left hh)
        have ha2 : a.date = v.date := beq_iff_eq.mp (Bool.and_elim_right hh)
        rw [if_pos hh]
        simp [applyReflectionUpsert, ha1, ha2]
      · rw [if_neg hh]

theorem upsertDailyReflection_len (v : InsertDailyReflection) (i : String) (n : Nat)
    (db : DB)
    (hfound : (db.dailyReflections.filter
      (fun r => r.userId == v.userId && r.date == v.date)).length ≠ 0) :
    (upsertDailyReflection v i n db).2.dailyReflections.length
      = db.dailyReflections.length := by
  cases h : db.dailyReflections.find? (fun r => r.userId == v.userId && r.date == v.date) with
  | none =>
      exact absurd (by
        rw [List.filter_eq_nil_iff.mpr
          (fun a ha => by simpa using List.find?_eq_none.mp h a ha)]
        rfl) hfound
  | some e =>
      simp only [upsertDailyReflection, getDailyReflection, h]
      exact List.length_map _ _

/-- C1 witness: upserting a reflection for user `u2` leaves user `u1`'s
stored reflection untouched. -/
theorem claim_C1_witness :
    reflFixture ∈
      (upsertDailyReflection { userId := "u2", date := "d1" } ("r2") 7 dbRefl).2.dailyReflections :=
  claim_C1.2.2.2.2.2.2.2.2.2.2.2.2.2.2.2.2.2.2.2
    { userId := "u2", date := "d1" } ("r2") 7 dbRefl reflFixture
    (by decide) (by decide)

/-- C4. `getPomodoroStats(userId, date?)` keeps only the user's sessions
(restricted, when a date is given, to sessions whose `completedAt` falls on
that calendar date) of type `"work"`, and returns the sum of their durations,
their count, and — when the count is positive — the JavaScript-rounded mean
`⌊total / count + 1/2⌋` (0 otherwise); `"break"` sessions contribute to none
of the statistics. Durations `[1500, 1500, 300]` with types
`["work", "work", "break"]` yield `{3000, 2, 1500}`, and zero work sessions
yield `{0, 0, 0}`. -/
theorem claim_C4 :
    (∀ (u d : String) (db : DB),
       getPomodoroStats u (some d) db =
         pomStatsOfSessions ((db.pomodoroSessions.filter (fun s => s.userId == u)).filter
           (fun s => dateOfTimestamp s.completedAt == d)))
    ∧ (∀ (u : String) (db : DB),
       getPomodoroStats u none db =
         pomStatsOfSessions (db.pomodoroSessions.filter (fun s => s.userId == u)))
    ∧ (∀ l : List PomodoroSession,
       (pomStatsOfSessions l).totalFocusTime =
         ((l.filter (fun s => s.type == "work")).map (fun s => s.duration)).sum)
    ∧ (∀ l : List PomodoroSession,
       (pomStatsOfSessions l).completedPomodoros =
         (l.filter (fun s => s.type == "work")).length)
    ∧ (∀ l : List PomodoroSession,
       0 < (l.filter (fun s => s.type == "work")).length →
       (pomStatsOfSessions l).averageSessionLength =
         ⌊(((pomStatsOfSessions l).totalFocusTime : ℚ) /
           ((pomStatsOfSessions l).completedPomodoros : ℚ) + 1 / 2)⌋)
    ∧ (∀ l : List PomodoroSession,
       (l.filter (fun s => s.type == "work")).length = 0 →
       pomStatsOfSessions l =
         { totalFocusTime := 0, completedPomodoros := 0, averageSessionLength := 0 })
    ∧ getPomodoroStats ("u1") (some ("1")) dbPom =
        { totalFocusTime := 3000, completedPomodoros := 2, averageSessionLength := 1500 }
    ∧ getPomodoroStats ("u2") (some ("1")) dbPom =
        { totalFocusTime := 0, completedPomodoros := 0, averageSessionLength := 0 } := by
  refine ⟨?_, ?_, ?_, ?_, ?_, ?_, ?_, ?_⟩
  · intro u d db
    simp only [getPomodoroStats, pomStatsOfSessions, filter_fuse]
  · intro u db
    simp only [getPomodoroStats, pomStatsOfSessions]
  · intro l
    simp only [pomStatsOfSessions, foldl_add_eq_sum, zero_add]
  · intro l
    simp only [pomStatsOfSessions]
  · intro l h
    have hlen : (0 < (pomStatsOfSessions l).completedPomodoros) := h
    simp only [pomStatsOfSessions] at hlen ⊢
    rw [if_pos hlen]
    exact jsRoundDiv_eq_floor _ _ hlen
  · intro l h
    have hnil : l.filter (fun s => s.type == "work") = [] := List.length_eq_zero.mp h
    simp only [pomStatsOfSessions, hnil]
    rfl
  · decide
  · decide

/-- C4 witness: the mean clause applied to the concrete work-session list. -/
theorem claim_C4_witness :
    (pomStatsOfSessions dbPom.pomodoroSessions).averageSessionLength =
      ⌊(((pomStatsOfSessions dbPom.pomodoroSessions).totalFocusTime : ℚ) /
        ((pomStatsOfSessions dbPom.pomodoroSessions).completedPomodoros : ℚ) + 1 / 2)⌋ :=
  claim_C4.2.2.2.2.1 dbPom.pomodoroSessions (by decide)

/-- C5. `upsertVisionPlan` idempotence: from a state with at most one
VisionPlan row for the payload's user, two sequential upserts of the same
fully-present payload leave exactly one row for that user, whose mutable
fields equal the payload; the first call inserts when no row exists and
every later call updates in place. -/
theorem claim_C5 (v : InsertVisionPlan) (i1 i2 : String) (n1 n2 : Nat)
    (cv : Option (List String)) (tv we : Option String) (db : DB)
    (hcv : v.coreValues = some cv) (htv : v.threeYearVision = some tv)
    (hwe : v.whyEngine = some we)
    (hone : (db.visionPlans.filter (fun r => r.userId == v.userId)).length ≤ 1) :
    (((upsertVisionPlan v i2 n2 (upsertVisionPlan v i1 n1 db).2).2.visionPlans.filter
        (fun r => r.userId == v.userId)).length = 1)
    ∧ ∀ r ∈ (upsertVisionPlan v i2 n2 (upsertVisionPlan v i1 n1 db).2).2.visionPlans,
        r.userId = v.userId →
        r.coreValues = cv ∧ r.threeYearVision = tv ∧ r.whyEngine = we := by
  constructor
  · have h1 := upsertVisionPlan_count v i1 n1 db
    have h2 := upsertVisionPlan_count v i2 n2 (upsertVisionPlan v i1 n1 db).2
    split_ifs at h1 h2 <;> omega
  · exact upsertVisionPlan_fields v i2 n2 _ cv tv we hcv htv hwe

/-- C5 witness: the idempotence statement at the concrete payload on the
empty store. -/
theorem claim_C5_witness :
    (((upsertVisionPlan visionPayloadFixture ("i2") 2
        (upsertVisionPlan visionPayloadFixture ("i1") 1 emptyDB).2).2.visionPlans.filter
        (fun r => r.userId == visionPayloadFixture.userId)).length = 1)
    ∧ ∀ r ∈ (upsertVisionPlan visionPayloadFixture ("i2") 2
        (upsertVisionPlan visionPayloadFixture ("i1") 1 emptyDB).2).2.visionPlans,
        r.userId = visionPayloadFixture.userId →
        r.coreValues = some ["balance"] ∧ r.threeYearVision = some "v"
          ∧ r.whyEngine = some "w" :=
  claim_C5 visionPayloadFixture ("i1") ("i2") 1 2 (some ["balance"]) (some "v") (some "w")
    emptyDB rfl rfl rfl (by decide)

/-- C6. `upsertDailyReflection` is keyed by the `(userId, date)` pair:
upserting for two distinct dates leaves one row per pair (two distinct
rows), and upserting twice for the same pair — starting from at most one row
for it — leaves exactly one row, with the second call updating in place
(the table length does not grow). -/
theorem claim_C6 :
    (∀ (v1 v2 : InsertDailyReflection) (i1 i2 : String) (n1 n2 : Nat) (db : DB),
      v2.userId = v1.userId → v1.date ≠ v2.date →
      (db.dailyReflections.filter
        (fun r => r.userId == v1.userId && r.date == v1.date)).length ≤ 1 →
      (db.dailyReflections.filter
        (fun r => r.userId == v2.userId && r.date == v2.date)).length ≤ 1 →
      ((upsertDailyReflection v2 i2 n2
          (upsertDailyReflection v1 i1 n1 db).2).2.dailyReflections.filter
        (fun r => r.userId == v1.userId && r.date == v1.date)).length = 1
      ∧ ((upsertDailyReflection v2 i2 n2
          (upsertDailyReflection v1 i1 n1 db).2).2.dailyReflections.filter
        (fun r => r.userId == v2.userId && r.date == v2.date)).length = 1)
    ∧ (∀ (v : InsertDailyReflection) (i1 i2 : String) (n1 n2 : Nat) (db : DB),
      (db.dailyReflections.filter
        (fun r => r.userId == v.userId && r.date == v.date)).length ≤ 1 →
      ((upsertDailyReflection v i2 n2
          (upsertDailyReflection v i1 n1 db).2).2.dailyReflections.filter
        (fun r => r.userId == v.userId && r.date == v.date)).length = 1
      ∧ (upsertDailyReflection v i2 n2
          (upsertDailyReflection v i1 n1 db).2).2.dailyReflections.length
          = (upsertDailyReflection v i1 n1 db).2.dailyReflections.length) := by
  constructor
  · intro v1 v2 i1 i2 n1 n2 db hu hd hc1 hc2
    have s1 := upsertDailyReflection_count v1 i1 n1 db
    have t1 : ((upsertDailyReflection v1 i1 n1 db).2.dailyReflections.filter
        (fun r => r.userId == v1.userId && r.date == v1.date)).length = 1 := by
      split_ifs at s1 <;> omega
    have o2 := upsertDailyReflection_count_other v2 i2 n2
      (upsertDailyReflection v1 i1 n1 db).2 v1.userId v1.date
      (fun hc => hd hc.2.symm)
    have o1 := upsertDailyReflection_count_other v1 i1 n1 db v2.userId v2.date
      (fun hc => hd hc.2)
    have s2 := upsertDailyReflection_count v2 i2 n2 (upsertDailyReflection v1 i1 n1 db).2
    rw [o1] at s2
    constructor
    · rw [o2, t1]
    · split_ifs at s2 <;> omega
  · intro v i1 i2 n1 n2 db hc
    have s1 := upsertDailyReflection_count v i1 n1 db
    have t1 : ((upsertDailyReflection v i1 n1 db).2.dailyReflections.filter
        (fun r => r.userId == v.userId && r.date == v.date)).length = 1 := by
      split_ifs at s1 <;> omega
    have s2 := upsertDailyReflection_count v i2 n2 (upsertDailyReflection v i1 n1 db).2
    rw [t1] at s2
    refine ⟨by simpa using s2, ?_⟩
    exact upsertDailyReflection_len v i2 n2 _ (by omega)

/-- C6 witness: the same-pair idempotence conjunct at the concrete payload
on the empty store. -/
theorem claim_C6_witness :
    ((upsertDailyReflection reflPayloadFixture ("i2") 2
        (upsertDailyReflection reflPayloadFixture ("i1") 1 emptyDB).2).2.dailyReflections.filter
      (fun r => r.userId == reflPayloadFixture.userId
        && r.date == reflPayloadFixture.date)).length = 1
    ∧ (upsertDailyReflection reflPayloadFixture ("i2") 2
        (upsertDailyReflection reflPayloadFixture ("i1") 1 emptyDB).2).2.dailyReflections.length
        = (upsertDailyReflection reflPayloadFixture ("i1") 1 emptyDB).2.dailyReflections.length :=
  claim_C6.2 reflPayloadFixture ("i1") ("i2") 1 2 emptyDB (by decide)

/-- C2 counterexample: the claim's "completedAt can never be set
independently of isCompleted" fails — a patch carrying `completedAt` but no
`isCompleted` writes the caller's `completedAt` verbatim to a task whose
stored `completedAt` was null. -/
theorem claim_C2_counterexample :
    bypassPatch.isCompleted = none
    ∧ taskFixture.completedAt = none
    ∧ ((updateDailyTask ("t1") ("u1") bypassPatch 100 dbTask).1.map
        (fun t => t.completedAt)) = some (some 42) := by
  decide

/-- C2 (amended). On an existing task matched by `(taskId, userId)`, the
stored row is the patch applied to it; when `updates.isCompleted` is present
the stored `completedAt` is derived — current time when the patched value is
`true`, null otherwise — regardless of every other patched field including a
caller-supplied `completedAt`; when `updates.isCompleted` is absent, a
caller-supplied `completedAt` is written verbatim, so the derivation governs
only patches that include `isCompleted`. -/
theorem claim_C2 :
    (∀ (tid u : String) (p : TaskPatch) (now : Nat) (db : DB) (r : DailyTask),
       db.dailyTasks.find? (fun t => t.id == tid && t.userId == u) = some r →
       (updateDailyTask tid u p now db).1 = some (applyTaskPatch now p r))
    ∧ (∀ (now : Nat) (p : TaskPatch) (r : DailyTask) (v : Option Bool),
       p.isCompleted = some v →
       (applyTaskPatch now p r).completedAt =
         (if v = some true then some now else none))
    ∧ (∀ (now : Nat) (p : TaskPatch) (r : DailyTask),
       p.isCompleted = none →
       (applyTaskPatch now p r).completedAt = p.completedAt.getD r.completedAt) := by
  refine ⟨?_, ?_, ?_⟩
  · intro tid u p now db r h
    simp only [updateDailyTask, h]
    rfl
  · intro now p r v h
    simp only [applyTaskPatch, h]
    by_cases hb : v = some true <;> simp [hb]
  · intro now p r h
    simp [applyTaskPatch, h]

/-- C2 witness: completing a task stamps the current time even though the
patch also carries a caller-chosen `completedAt`. -/
theorem claim_C2_witness :
    (applyTaskPatch 100
      ({ isCompleted := some (some true), completedAt := some (some 42) } : TaskPatch)
      taskFixture).completedAt = some 100 := by
  have h := claim_C2.2.1 100
    ({ isCompleted := some (some true), completedAt := some (some 42) } : TaskPatch)
    taskFixture (some true) rfl
  simpa using h

/-- C3. Cross-user update: with quest `q1` owned by `u1`, the call
`updateQuarterlyQuest("q1", "u2", …)` matches no row, so the source's
`[updated]` destructuring yields `undefined` (modelled `none`) — an
implicit default rather than the explicit failure the claim requires — the
quest is left unchanged, and the PATCH route then answers 200 as if the
update had succeeded. -/
theorem claim_C3_divergence :
    (updateQuarterlyQuest ("q1") ("u2") emptyQuestPatch 5 dbQuest).1 = none
    ∧ (updateQuarterlyQuest ("q1") ("u2") emptyQuestPatch 5 dbQuest).2 = dbQuest
    ∧ patchQuarterlyQuest ("u2") ("q1") (Json.obj []) 5 dbQuest = (200, dbQuest) := by
  decide

/-- C7 counterexample: a body that the quest insert schema rejects (all its
required fields are missing) is not rejected by the PATCH route — it reaches
the storage layer and mutates the matched row. -/
theorem claim_C7_counterexample :
    decodeInsertQuarterlyQuest (progressOnlyBody.setKey ("userId") (Json.str ("u1"))) = none
    ∧ questFixture.progress = some 0
    ∧ patchQuarterlyQuest ("u1") ("q1") progressOnlyBody 9 dbQuest
        = (200, { dbQuest with quarterlyQuests :=
            [{ questFixture with progress := some 50, updatedAt := some 9 }] }) := by
  refine ⟨by decide, by decide, by decide⟩

/-- C7 (amended). Every POST write endpoint validates its body against the
entity's insert schema and answers 400 with the store untouched — before any
Data Access Layer call — when validation fails; the PATCH endpoints for
quarterly quests, weekly plans and daily tasks perform no validation and
forward the raw body to the update operations. -/
theorem claim_C7 :
    (∀ (u : String) (body : Json) (i : String) (n : Nat) (db : DB),
       decodeInsertVisionPlan (body.setKey ("userId") (Json.str u)) = none →
       postVision u body i n db = (400, db))
    ∧ (∀ (u : String) (body : Json) (i : String) (n : Nat) (db : DB),
       decodeInsertQuarterlyQuest (body.setKey ("userId") (Json.str u)) = none →
       postQuarterlyQuests u body i n db = (400, db))
    ∧ (∀ (u : String) (body : Json) (i : String) (n : Nat) (db : DB),
       decodeInsertWeeklyPlan (body.setKey ("userId") (Json.str u)) = none →
       postWeeklyPlans u body i n db = (400, db))
    ∧ (∀ (u : String) (body : Json) (i : String) (n : Nat) (db : DB),
       decodeInsertDailyTask (body.setKey ("userId") (Json.str u)) = none →
       postDailyTasks u body i n db = (400, db))
    ∧ (∀ (u : String) (body : Json) (i : String) (n : Nat) (db : DB),
       decodeInsertPomodoroSession (body.setKey ("userId") (Json.str u)) = none →
       postPomodoroSessions u body i n db = (400, db))
    ∧ (∀ (u : String) (body : Json) (i : String) (n : Nat) (db : DB),
       decodeInsertDailyReflection (body.setKey ("userId") (Json.str u)) = none →
       postDailyReflections u body i n db = (400, db))
    ∧ (∀ (body : Json) (i : String) (n : Nat) (db : DB),
       decodeInsertErrorLog body = none →
       postErrorLogs body i n db = (400, db))
    ∧ (∀ (u qid : String) (body : Json) (n : Nat) (db : DB) (p : QuestPatch),
       bodyToQuestPatch body = some p →
       patchQuarterlyQuest u qid body n db = (200, (updateQuarterlyQuest qid u p n db).2))
    ∧ (∀ (u pid : String) (body : Json) (n : Nat) (db : DB) (p : WeeklyPlanPatch),
       bodyToWeeklyPlanPatch body = some p →
       patchWeeklyPlan u pid body n db = (200, (updateWeeklyPlan pid u p n db).2))
    ∧ (∀ (u tid : String) (body : Json) (n : Nat) (db : DB) (p : TaskPatch),
       bodyToTaskPatch body = some p →
       patchDailyTask u tid body n db = (200, (updateDailyTask tid u p n db).2)) := by
  refine ⟨?_, ?_, ?_, ?_, ?_, ?_, ?_, ?_, ?_, ?_⟩
  · intro u body i n db h
    simp only [postVision, h]
  · intro u body i n db h
    simp only [postQuarterlyQuests, h]
  · intro u body i n db h
    simp only [postWeeklyPlans, h]
  · intro u body i n db h
    simp only [postDailyTasks, h]
  · intro u body i n db h
    simp only [postPomodoroSessions, h]
  · intro u body i n db h
    simp only [postDailyReflections, h]
  · intro body i n db h
    simp only [postErrorLogs, h]
  · intro u qid body n db p h
    simp only [patchQuarterlyQuest, h]
  · intro u pid body n db p h
    simp only [patchWeeklyPlan, h]
  · intro u tid body n db p h
    simp only [patchDailyTask, h]

/-- C7 witness: a vision-plan body with a numeric `coreValues` is rejected
with 400 and the store stays untouched. -/
theorem claim_C7_witness :
    postVision ("u1") (Json.obj [("coreValues", Json.num 7)]) ("i") 1 emptyDB
      = (400, emptyDB) :=
  claim_C7.1 ("u1") (Json.obj [("coreValues", Json.num 7)]) ("i") 1 emptyDB (by decide)

/-- C8 counterexample: a vision plan with exactly one core value (and
non-empty vision and purpose) already completes the life-compass onboarding
step, refuting the claim's "at least 3 core values" threshold. -/
theorem claim_C8_counterexample :
    oneValueVisionPlan.coreValues = some ["focus"]
    ∧ hasLifeCompass (some oneValueVisionPlan) = true
    ∧ ((onboardingSteps (some oneValueVisionPlan) (some [])).head?).map
        (fun s => s.isCompleted) = some true := by
  decide

/-- C8 (amended). The onboarding state is a pure function of the fetched
vision plan and quest list: the life-compass step is complete exactly when
the vision plan exists with a non-empty core-values list (at least 1 value,
not 3) and non-empty vision and purpose strings; the quarterly-quest step is
complete exactly when a fetched quest has `isActive` true; overall
completion is the conjunction of the two predicates. -/
theorem claim_C8 :
    (∀ vp : Option VisionPlan, hasLifeCompass vp = true ↔
       ∃ p, vp = some p ∧ (∃ l, p.coreValues = some l ∧ l ≠ [])
         ∧ (∃ s3, p.threeYearVision = some s3 ∧ s3 ≠ "")
         ∧ (∃ s4, p.whyEngine = some s4 ∧ s4 ≠ ""))
    ∧ (∀ qs : Option (List QuarterlyQuest), hasQuarterlyQuests qs = true ↔
       ∃ l, qs = some l ∧ ∃ q ∈ l, q.isActive = some true)
    ∧ (∀ (vp : Option VisionPlan) (qs : Option (List QuarterlyQuest)),
       ((onboardingSteps vp qs).head?).map (fun s => s.isCompleted)
         = some (hasLifeCompass vp))
    ∧ (∀ (vp : Option VisionPlan) (qs : Option (List QuarterlyQuest)),
       ((onboardingSteps vp qs).get? 2).map (fun s => s.isCompleted)
         = some (hasQuarterlyQuests qs))
    ∧ (∀ (vp : Option VisionPlan) (qs : Option (List QuarterlyQuest)),
       isOnboardingComplete vp qs = (hasLifeCompass vp && hasQuarterlyQuests qs)) := by
  refine ⟨?_, ?_, ?_, ?_, ?_⟩
  · intro vp
    cases vp with
    | none => simp [hasLifeCompass]
    | some p =>
        simp only [hasLifeCompass, Bool.and_eq_true]
        constructor
        · intro h
          obtain ⟨⟨h1, h2⟩, h3⟩ := h
          refine ⟨p, rfl, ?_, ?_, ?_⟩
          · cases hc : p.coreValues with
            | none => rw [hc] at h1; cases h1
            | some l =>
                rw [hc] at h1
                refine ⟨l, rfl, ?_⟩
                intro hnil
                rw [hnil] at h1
                cases h1
          · cases ht : p.threeYearVision with
            | none => rw [ht] at h2; cases h2
            | some s =>
                rw [ht] at h2
                exact ⟨s, rfl, by simpa [truthyStr] using h2⟩
          · cases hw : p.whyEngine with
            | none => rw [hw] at h3; cases h3
            | some s =>
                rw [hw] at h3
                exact ⟨s, rfl, by simpa [truthyStr] using h3⟩
        · rintro ⟨p', hp', ⟨l, hc, hl⟩, ⟨s3, ht, hs3⟩, ⟨s4, hw, hs4⟩⟩
          cases hp'
          rw [hc, ht, hw]
          refine ⟨⟨?_, ?_⟩, ?_⟩
          · simpa using fun hlen => hl (List.length_eq_zero.mp hlen)
          · simpa [truthyStr] using hs3
          · simpa [truthyStr] using hs4
  · intro qs
    cases qs with
    | none => simp [hasQuarterlyQuests]
    | some l =>
        simp only [hasQuarterlyQuests, Bool.and_eq_true, List.any_eq_true]
        constructor
        · rintro ⟨_, q, hq, hact⟩
          exact ⟨l, rfl, q, hq, by simpa using hact⟩
        · rintro ⟨l', hl', q, hq, hact⟩
          cases hl'
          refine ⟨?_, q, hq, by simp [hact]⟩
          simpa using fun hlen => (List.ne_nil_of_mem hq) (List.length_eq_zero.mp hlen)
  · intro vp qs
    rfl
  · intro vp qs
    rfl
  · intro vp qs
    cases h1 : hasLifeCompass vp <;> cases h2 : hasQuarterlyQuests qs <;>
      simp [isOnboardingComplete, h1, h2]

/-- C8 witness: the life-compass characterization applied to the concrete
one-value vision plan. -/
theorem claim_C8_witness :
    hasLifeCompass (some oneValueVisionPlan) = true :=
  (claim_C8.1 (some oneValueVisionPlan)).mpr
    ⟨oneValueVisionPlan, rfl, ⟨["focus"], rfl, by decide⟩,
      ⟨"become", rfl, by decide⟩, ⟨"impact", rfl, by decide⟩⟩

/-- C9. Unrestricted patch fields: the update operations write every present
patch key verbatim — including `id`, `userId` and (for tasks) `date` — with
only `updatedAt` (and, for tasks with `isCompleted` present, `completedAt`)
overridden by the layer; the PATCH route forwards the raw body with no
allow-list, so a body carrying `userId` transfers the matched row's
ownership. -/
theorem claim_C9 :
    (∀ (now : Nat) (p : QuestPatch) (r : QuarterlyQuest),
       (applyQuestPatch now p r).id = p.id.getD r.id
       ∧ (applyQuestPatch now p r).userId = p.userId.getD r.userId
       ∧ (applyQuestPatch now p r).progress = p.progress.getD r.progress
       ∧ (applyQuestPatch now p r).createdAt = p.createdAt.getD r.createdAt
       ∧ (applyQuestPatch now p r).updatedAt = some now)
    ∧ (∀ (now : Nat) (p : TaskPatch) (r : DailyTask),
       (applyTaskPatch now p r).id = p.id.getD r.id
       ∧ (applyTaskPatch now p r).userId = p.userId.getD r.userId
       ∧ (applyTaskPatch now p r).date = p.date.getD r.date
       ∧ (applyTaskPatch now p r).updatedAt = some now)
    ∧ (∀ (now : Nat) (p : WeeklyPlanPatch) (r : WeeklyPlan),
       (applyWeeklyPlanPatch now p r).id = p.id.getD r.id
       ∧ (applyWeeklyPlanPatch now p r).userId = p.userId.getD r.userId
       ∧ (applyWeeklyPlanPatch now p r).updatedAt = some now)
    ∧ (∀ v : String, bodyToQuestPatch (Json.obj [("userId", Json.str v)])
         = some { emptyQuestPatch with userId := some v })
    ∧ (∀ (u u2 qid : String) (now : Nat) (db : DB) (q : QuarterlyQuest),
       q ∈ db.quarterlyQuests → q.id = qid → q.userId = u →
       ({ q with userId := u2, updatedAt := some now } : QuarterlyQuest)
         ∈ (patchQuarterlyQuest u qid (Json.obj [("userId", Json.str u2)]) now db).2.quarterlyQuests) := by
  refine ⟨?_, ?_, ?_, ?_, ?_⟩
  · intro now p r
    exact ⟨rfl, rfl, rfl, rfl, rfl⟩
  · intro now p r
    exact ⟨rfl, rfl, rfl, rfl⟩
  · intro now p r
    exact ⟨rfl, rfl, rfl⟩
  · intro v
    rfl
  · intro u u2 qid now db q hq hid huid
    have hp : bodyToQuestPatch (Json.obj [("userId", Json.str u2)])
        = some { emptyQuestPatch with userId := some u2 } := rfl
    simp only [patchQuarterlyQuest, hp, updateQuarterlyQuest]
    have hcond : (q.id == qid && q.userId == u) = true := by simp [hid, huid]
    have happ : applyQuestPatch now { emptyQuestPatch with userId := some u2 } q
        = { q with userId := u2, updatedAt := some now } := rfl
    rw [← happ]
    exact List.mem_map.mpr ⟨q, hq, by rw [if_pos hcond]⟩

/-- C9 witness: the ownership-transfer clause at the concrete store. -/
theorem claim_C9_witness :
    ({ questFixture with userId := "u2", updatedAt := some 3 } : QuarterlyQuest)
      ∈ (patchQuarterlyQuest ("u1") ("q1") (Json.obj [("userId", Json.str ("u2"))]) 3
          dbQuest).2.quarterlyQuests :=
  claim_C9.2.2.2.2 ("u1") ("u2") ("q1") 3 dbQuest questFixture (by decide) rfl rfl

/-- C10. Sequential singleton invariant: every mutating Data Access Layer
operation preserves "at most one VisionPlan row per user and at most one
DailyReflection row per (user, date) pair"; the upserts' insert branches run
only when the preceding lookup found no row, and no other operation touches
those two tables. -/
theorem claim_C10 :
    (∀ (u : UpsertUser) (now : Nat) (db : DB),
       SingletonInv db → SingletonInv (upsertUser u now db).2)
    ∧ (∀ (v : InsertVisionPlan) (i : String) (n : Nat) (db : DB),
       SingletonInv db → SingletonInv (upsertVisionPlan v i n db).2)
    ∧ (∀ (q : InsertQuarterlyQuest) (i : String) (n : Nat) (db : DB),
       SingletonInv db → SingletonInv (createQuarterlyQuest q i n db).2)
    ∧ (∀ (qid u : String) (p : QuestPatch) (n : Nat) (db : DB),
       SingletonInv db → SingletonInv (updateQuarterlyQuest qid u p n db).2)
    ∧ (∀ (w : InsertWeeklyPlan) (i : String) (n : Nat) (db : DB),
       SingletonInv db → SingletonInv (createWeeklyPlan w i n db).2)
    ∧ (∀ (pid u : String) (p : WeeklyPlanPatch) (n : Nat) (db : DB),
       SingletonInv db → SingletonInv (updateWeeklyPlan pid u p n db).2)
    ∧ (∀ (t : InsertDailyTask) (i : String) (n : Nat) (db : DB),
       SingletonInv db → SingletonInv (createDailyTask t i n db).2)
    ∧ (∀ (tid u : String) (p : TaskPatch) (n : Nat) (db : DB),
       SingletonInv db → SingletonInv (updateDailyTask tid u p n db).2)
    ∧ (∀ (tid u : String) (db : DB),
       SingletonInv db → SingletonInv (deleteDailyTask tid u db))
    ∧ (∀ (s : InsertPomodoroSession) (i : String) (n : Nat) (db : DB),
       SingletonInv db → SingletonInv (createPomodoroSession s i n db).2)
    ∧ (∀ (v : InsertDailyReflection) (i : String) (n : Nat) (db : DB),
       SingletonInv db → SingletonInv (upsertDailyReflection v i n db).2)
    ∧ (∀ (e : InsertErrorLog) (i : String) (n : Nat) (db : DB),
       SingletonInv db → SingletonInv (createErrorLog e i n db).2) := by
  refine ⟨?_, ?_, ?_, ?_, ?_, ?_, ?_, ?_, ?_, ?_, ?_, ?_⟩
  · intro u now db hInv
    cases h : db.users.find? (fun r => r.id == u.id) <;>
      simp only [upsertUser, h] <;> exact hInv
  · intro v i n db hInv
    obtain ⟨hv, hr⟩ := hInv
    constructor
    · intro u
      by_cases hu : u = v.userId
      · subst hu
        have h := upsertVisionPlan_count v i n db
        have hb := hv v.userId
        split_ifs at h <;> omega
      · rw [upsertVisionPlan_count_other v i n db u hu]
        exact hv u
    · intro u d
      have hsame : (upsertVisionPlan v i n db).2.dailyReflections = db.dailyReflections := by
        cases h : db.visionPlans.find? (fun r => r.userId == v.userId) <;>
          simp [upsertVisionPlan, getVisionPlan, h]
      rw [hsame]
      exact hr u d
  · intro q i n db hInv
    exact hInv
  · intro qid u p n db hInv
    exact hInv
  · intro w i n db hInv
    exact hInv
  · intro pid u p n db hInv
    exact hInv
  · intro t i n db hInv
    exact hInv
  · intro tid u p n db hInv
    exact hInv
  · intro tid u db hInv
    exact hInv
  · intro s i n db hInv
    exact hInv
  · intro v i n db hInv
    obtain ⟨hv, hr⟩ := hInv
    constructor
    · intro u
      have hsame : (upsertDailyReflection v i n db).2.visionPlans = db.visionPlans := by
        cases h : db.dailyReflections.find?
            (fun r => r.userId == v.userId && r.date == v.date) <;>
          simp [upsertDailyReflection, getDailyReflection, h]
      rw [hsame]
      exact hv u
    · intro u d
      by_cases hp : v.userId = u ∧ v.date = d
      · obtain ⟨h1, h2⟩ := hp
        subst h1
        subst h2
        have h := upsertDailyReflection_count v i n db
        have hb := hr v.userId v.date
        split_ifs at h <;> omega
      · rw [upsertDailyReflection_count_other v i n db u d hp]
        exact hr u d
  · intro e i n db hInv
    exact hInv

/-- C10 witness: creating a quest preserves the singleton invariants on the
concrete store. -/
theorem claim_C10_witness :
    SingletonInv (createQuarterlyQuest
      ⟨"u1", "t", "g", "p", "s", "Q1", (2025 : Int), none, none⟩ ("q9") 3 dbQuest).2 :=
  claim_C10.2.2.1 ⟨"u1", "t", "g", "p", "s", "Q1", (2025 : Int), none, none⟩ ("q9") 3 dbQuest
    ⟨fun u => by simp [dbQuest, emptyDB], fun u d => by simp [dbQuest, emptyDB]⟩

end InMotion
